import Mathlib

/-!
Verification development for the vibezsume resume/job text-analysis core.

The Python sources are shallowly embedded: pure string functions become Lean
functions over `String`/`List Char`; Python regular expressions are embedded
through a small backtracking engine (`RE`/`mrun`) whose alternation order and
greedy/lazy quantifier order reproduce the CPython `re` backtracking order;
the spaCy / transformers NER models are abstracted as oracle records (an
explicit `NLP` parameter), with the "model unavailable" mode (`spacy.blank`
fallback, `ner_pipeline is None`) represented by the oracle that returns no
entities; Python exceptions (`NameError` from undefined module names) are
modelled with `Except`.  Python `float` percentage arithmetic is modelled by
exact rational arithmetic over `ℚ`; Python `set` iteration order, which is
unspecified, is modelled as first-occurrence (insertion) order.
-/

namespace VZ

/-! ## Python string primitives -/

/-- Characters Python `str.strip` / `\s` treat as whitespace (ASCII fragment). -/
def isPySpace (c : Char) : Bool :=
  c = ' ' || c = '\t' || c = '\n' || c = '\r' || c = '\x0b' || c = '\x0c'

/-- Python regex word character `\w` (ASCII fragment: letters, digits, underscore). -/
def isWordChar (c : Char) : Bool :=
  ('a' ≤ c && c ≤ 'z') || ('A' ≤ c && c ≤ 'Z') || ('0' ≤ c && c ≤ '9') || c = '_'

/-- ASCII decimal digit. -/
def isDigitChar (c : Char) : Bool := '0' ≤ c && c ≤ '9'

/-- ASCII lowercasing of one character, as Python `str.lower` does on ASCII text. -/
def pyLowerChar (c : Char) : Char :=
  if 'A' ≤ c && c ≤ 'Z' then Char.ofNat (c.toNat + 32) else c

/-- Python `str.lower` (ASCII model). -/
def pyLower (s : String) : String := ⟨s.data.map pyLowerChar⟩

/-- Python `str.strip()` on a character list. -/
def stripChars (l : List Char) : List Char :=
  ((l.dropWhile isPySpace).reverse.dropWhile isPySpace).reverse

/-- Python `str.strip()`. -/
def pyStrip (s : String) : String := ⟨stripChars s.data⟩

/-- Python `str.rstrip(",")`: remove trailing commas. -/
def pyRstripComma (s : String) : String :=
  ⟨(s.data.reverse.dropWhile (fun c => c = ',')).reverse⟩

/-- Boolean list-prefix test. -/
def isPrefixOfCL : List Char → List Char → Bool
  | [], _ => true
  | _ :: _, [] => false
  | a :: as, b :: bs => a = b && isPrefixOfCL as bs

/-- Boolean contiguous-sublist test. -/
def isSubListOf (needle : List Char) : List Char → Bool
  | [] => isPrefixOfCL needle []
  | c :: t => isPrefixOfCL needle (c :: t) || isSubListOf needle t

/-- Python `needle in haystack` on strings: contiguous-substring test. -/
def pyIn (needle haystack : String) : Bool := isSubListOf needle.data haystack.data

/-- Python `str.split(sep)` for a single separator character
    (keeps empty pieces, as Python does). -/
def splitOnChar (sep : Char) : List Char → List (List Char)
  | [] => [[]]
  | c :: t =>
    if c = sep then [] :: splitOnChar sep t
    else
      match splitOnChar sep t with
      | h :: r => (c :: h) :: r
      | [] => [[c]]

/-- Python `text.split("\n")`. -/
def splitNL (s : String) : List String := (splitOnChar '\n' s.data).map (fun l => ⟨l⟩)

/-- Python whitespace `str.split()` (drops empty pieces). -/
def splitWs (s : String) : List String :=
  ((splitOnChar ' ' (s.data.map (fun c => if isPySpace c then ' ' else c))).map
      (fun l => (⟨l⟩ : String))).filter (fun w => w ≠ "")

/-- Index of the first occurrence of `needle` in `haystack`
    (Python `str.find`, `none` for -1). -/
def firstIndexOf (needle : List Char) (haystack : List Char) : Option Nat :=
  match haystack with
  | [] => if needle = [] then some 0 else none
  | _ :: t =>
    if isPrefixOfCL needle haystack then some 0
    else (firstIndexOf needle t).map (· + 1)

/-- Fuel-driven worker for `replaceAll` (structural recursion so the kernel
    can evaluate it). -/
def replaceAllAux (old new : List Char) : Nat → List Char → List Char
  | _, [] => []
  | 0, l => l
  | fuel + 1, c :: t =>
    if old ≠ [] && isPrefixOfCL old (c :: t) then
      new ++ replaceAllAux old new fuel ((c :: t).drop old.length)
    else c :: replaceAllAux old new fuel t

/-- Python `str.replace(old, new)` (all occurrences, left to right);
    `old` is assumed non-empty at all call sites. -/
def replaceAll (old new : List Char) (l : List Char) : List Char :=
  replaceAllAux old new l.length l

/-- Python `", ".join` of a list of strings. -/
def joinSep (sep : String) : List String → String
  | [] => ""
  | [x] => x
  | x :: y :: t => x ++ sep ++ joinSep sep (y :: t)

/-- Fuel-driven worker for `firstDedup`. -/
def firstDedupAux {α : Type} [DecidableEq α] : Nat → List α → List α
  | _, [] => []
  | 0, l => l
  | fuel + 1, x :: t => x :: firstDedupAux fuel (t.filter (fun y => y ≠ x))

/-- Deduplication keeping the first occurrence of each element
    (insertion-order model of a Python `set` built from a list). -/
def firstDedup {α : Type} [DecidableEq α] (l : List α) : List α :=
  firstDedupAux l.length l

/-- Number of occurrences of `x` in `l` (Python `Counter` count). -/
def countOcc (x : String) (l : List String) : Nat := (l.filter (fun y => y = x)).length

/-- Truthiness of an optional string, as Python sees it
    (`None` and `""` are falsy). -/
def truthy : Option String → Bool
  | some s => s ≠ ""
  | none => false

/-- Python `x or "N/A"`. -/
def orNA : Option String → String
  | some s => if s = "" then "N/A" else s
  | none => "N/A"

/-! ## A small backtracking regular-expression engine

Python `re` patterns used by the sources are embedded as terms of `RE`.
`mrun` returns the list of possible post-states in CPython backtracking
priority order (alternation left to right, greedy quantifiers longest first,
lazy quantifiers shortest first), so taking the head of the list reproduces
the match Python's engine reports.  A single capture slot suffices: no
pattern in the sources needs more than one group at a time. -/

/-- Match state: last consumed character (for `\b`), remaining input,
    and the capture slot. -/
structure MSt where
  prev : Option Char
  rest : List Char
  cap : Option (List Char)

/-- Regular-expression abstract syntax. -/
inductive RE where
  | cls (p : Char → Bool)
  | lit (s : List Char)
  | lici (s : List Char)
  | eps
  | seq (a b : RE)
  | alt (a b : RE)
  | opt (a : RE)
  | rep (p : Char → Bool) (lo : Nat) (hi : Option Nat)
  | repLazy (p : Char → Bool) (lo : Nat) (hi : Option Nat)
  | look (a : RE)
  | wb
  | grp (a : RE)

/-- Wordness of an optional character (`\b` treats the text edges as
    non-word). -/
def wordAt : Option Char → Bool
  | some c => isWordChar c
  | none => false

/-- Advance a match state by `k` consumed characters. -/
def advanceSt (st : MSt) (k : Nat) : MSt :=
  { prev := if k = 0 then st.prev else (st.rest.take k).getLast?
    rest := st.rest.drop k
    cap := st.cap }

/-- Length of the longest prefix of characters satisfying `p`. -/
def countWhile (p : Char → Bool) : List Char → Nat
  | [] => 0
  | c :: t => if p c then countWhile p t + 1 else 0

/-- Post-states of a class repetition, greedy (longest first) or lazy. -/
def repStates (st : MSt) (p : Char → Bool) (lo : Nat) (hi : Option Nat)
    (greedy : Bool) : List MSt :=
  let run := countWhile p st.rest
  let maxK := match hi with
    | some h => min run h
    | none => run
  if maxK < lo then []
  else
    ((List.range (maxK - lo + 1)).map
      (fun i => if greedy then maxK - i else lo + i)).map (advanceSt st)

/-- Run a pattern at the current position; results in backtracking order. -/
def mrun : RE → MSt → List MSt
  | .cls p, st =>
    match st.rest with
    | c :: t => if p c then [⟨some c, t, st.cap⟩] else []
    | [] => []
  | .lit s, st => if st.rest.take s.length = s then [advanceSt st s.length] else []
  | .lici s, st =>
    if (st.rest.take s.length).map pyLowerChar = s then [advanceSt st s.length] else []
  | .eps, st => [st]
  | .seq a b, st => (mrun a st).flatMap (mrun b)
  | .alt a b, st => mrun a st ++ mrun b st
  | .opt a, st => mrun a st ++ [st]
  | .rep p lo hi, st => repStates st p lo hi true
  | .repLazy p lo hi, st => repStates st p lo hi false
  | .look a, st => if (mrun a st).isEmpty then [] else [st]
  | .wb, st =>
    if wordAt st.prev ≠ wordAt st.rest.head? then [st] else []
  | .grp a, st =>
    (mrun a st).map (fun st2 =>
      { st2 with cap := some (st.rest.take (st.rest.length - st2.rest.length)) })

/-- Result of a successful `re.search`-style scan. -/
structure MRes where
  startIdx : Nat
  matched : List Char
  cap : Option (List Char)
  prevAtEnd : Option Char
  rest : List Char

/-- Leftmost-match scan; `bol` restricts attempts to line starts
    (a `^`-anchored pattern under `re.MULTILINE`). -/
def searchAux (re : RE) (bol : Bool) : Option Char → List Char → Nat → Option MRes
  | prev, s, i =>
    let attempt :=
      if bol && ¬(prev = none || prev = some '\n') then []
      else mrun re ⟨prev, s, none⟩
    match attempt with
    | st :: _ =>
      some ⟨i, s.take (s.length - st.rest.length), st.cap, st.prev, st.rest⟩
    | [] =>
      match s with
      | [] => none
      | c :: t => searchAux re bol (some c) t (i + 1)

/-- Python `re.search` over a character list. -/
def engineSearch (re : RE) (s : List Char) : Option MRes := searchAux re false none s 0

/-- Python `re.match` (anchored at the start). -/
def engineMatch (re : RE) (s : List Char) : Option MRes :=
  match mrun re ⟨none, s, none⟩ with
  | st :: _ => some ⟨0, s.take (s.length - st.rest.length), st.cap, st.prev, st.rest⟩
  | [] => none

/-- Worker for `engineFindall` (fuel-driven, non-overlapping matches,
    advancing one character past an empty match as Python does). -/
def findallAux (re : RE) : Nat → Option Char → List Char → Nat → List MRes
  | 0, _, _, _ => []
  | fuel + 1, prev, s, i =>
    match searchAux re false prev s i with
    | none => []
    | some r =>
      if r.matched = [] then
        match r.rest with
        | [] => [r]
        | c :: t => r :: findallAux re fuel (some c) t (r.startIdx + 1)
      else r :: findallAux re fuel r.prevAtEnd r.rest (r.startIdx + r.matched.length)

/-- Python `re.findall`, returning full match results. -/
def engineFindall (re : RE) (s : List Char) : List MRes :=
  findallAux re (s.length + 1) none s 0

/-- Worker for `engineSplit`: pieces of `s` between non-overlapping matches
    of `re` (which at all call sites always consumes at least one
    character). -/
def splitAux (re : RE) : Nat → Option Char → List Char → List (List Char)
  | 0, _, s => [s]
  | fuel + 1, prev, s =>
    match searchAux re false prev s 0 with
    | none => [s]
    | some r =>
      if r.matched = [] then [s]
      else s.take r.startIdx :: splitAux re fuel r.prevAtEnd r.rest

/-- Python `re.split` for a pattern without capturing groups. -/
def engineSplit (re : RE) (s : List Char) : List (List Char) :=
  splitAux re (s.length + 1) none s

/-- Worker for `engineSub`: like `splitAux` but honouring a `^`-anchor flag. -/
def subPieces (re : RE) (bol : Bool) : Nat → Option Char → List Char → List (List Char)
  | 0, _, s => [s]
  | fuel + 1, prev, s =>
    match searchAux re bol prev s 0 with
    | none => [s]
    | some r =>
      if r.matched = [] then [s]
      else s.take r.startIdx :: subPieces re bol fuel r.prevAtEnd r.rest

/-- Python `re.sub(pattern, repl, s)` for a non-empty-match pattern;
    `bol` marks a `^`-anchored pattern under `re.MULTILINE`. -/
def engineSub (re : RE) (bol : Bool) (repl : List Char) (s : List Char) : List Char :=
  List.intercalate repl (subPieces re bol (s.length + 1) none s)

/-- Python `re.sub(pattern, repl, s, count=1)`. -/
def engineSubFirst (re : RE) (repl : List Char) (s : List Char) : List Char :=
  match engineSearch re s with
  | none => s
  | some r => s.take r.startIdx ++ repl ++ r.rest

/-! Pattern-building helpers. -/

/-- Literal (case-sensitive). -/
def rlit (s : String) : RE := .lit s.data

/-- Literal under `re.IGNORECASE`. -/
def rlici (s : String) : RE := .lici (pyLower s).data

/-- Sequence of patterns. -/
def rseq (l : List RE) : RE := l.foldr .seq .eps

/-- Ordered alternation of patterns. -/
def ralt (l : List RE) : RE := l.foldr .alt (.cls (fun _ => false))

/-- Pattern `\s*`. -/
def rws0 : RE := .rep isPySpace 0 none

/-- Pattern `\s+`. -/
def rws1 : RE := .rep isPySpace 1 none

/-- Character-set membership test built from a string of characters. -/
def inCharSet (s : String) (c : Char) : Bool := s.data.contains c

/-! ## MatchingEngine: the Streamlit resume-match analysis

Embeds src/pages/02_Job_Analyzer.py, `_display_resume_match_analysis`,
lines 152-155 (the identical computation appears in src/app.py lines
499-507).  Inputs are the two already-lowercased skill sets
(`set(str(s).lower() for s in ...)` in the source); the `sorted(list(...))`
presentation step does not change the sets or their cardinalities, so the
three outputs are modelled as finite sets; the Python float score is
modelled by exact rational arithmetic. -/

/-- Line 152: `matching_skills = resume_skills.intersection(job_skills)`. -/
def matchingSkills (resume job : Finset String) : Finset String := resume ∩ job

/-- Line 153: `missing_skills = job_skills - resume_skills`. -/
def missingSkills (resume job : Finset String) : Finset String := job \ resume

/-- Line 154: `additional_skills = resume_skills - job_skills`. -/
def additionalSkills (resume job : Finset String) : Finset String := resume \ job

/-- Line 155: `(len(matching_skills) / len(job_skills)) * 100 if job_skills
    else 0` (src/app.py lines 504-507 compute the same value via a guarded
    assignment). -/
def matchScorePercent (resume job : Finset String) : ℚ :=
  if job.Nonempty then
    ((matchingSkills resume job).card : ℚ) / (job.card : ℚ) * 100
  else 0

/-! ## core_logic comparison (substring-aware variant)

Embeds src/core_logic/job_analyzer.py: `extract_keywords_from_text`
(lines 124-178) and the skill-comparison core of
`compare_resume_to_job_description` (lines 229-259).  Python `set`
iteration order is modelled as first-occurrence order; `Counter.most_common`
as a stable sort by descending count over first-occurrence-ordered distinct
words. -/

/-- Character class `[a-zA-Z0-9.-]` of the tokenizer at line 157. -/
def tokChar (c : Char) : Bool :=
  ('a' ≤ c && c ≤ 'z') || ('A' ≤ c && c ≤ 'Z') || ('0' ≤ c && c ≤ '9') ||
    c = '.' || c = '-'

/-- Tokenizer pattern of line 157: `\b[a-zA-Z0-9.-]+\b`. -/
def tokenPat : RE := rseq [.wb, .rep tokChar 1 none, .wb]

/-- Stop-word set of lines 161-169. -/
def stopWords : List String :=
  ["and", "the", "is", "in", "it", "to", "a", "of", "for", "on", "with", "as",
   "at", "by", "an", "or", "if",
   "are", "has", "had", "was", "were", "will", "be", "this", "that", "my",
   "your", "our", "we", "us", "me",
   "he", "she", "they", "them", "just", "so", "than", "then", "not", "all",
   "any", "some", "such", "no", "nor",
   "can", "do", "get", "go", "up", "out", "about", "who", "what", "when",
   "where", "why", "how",
   "job", "role", "company", "experience", "skill", "skills", "work", "team",
   "position", "candidate",
   "description", "responsibilities", "requirements", "preferred",
   "qualification", "qualifications",
   "etc", "e.g", "i.e", "br", "p", "li", "div", "span", "ul", "ol", "strong",
   "em"]

/-- Lexicographic (code-point) comparison of strings, as Python compares
    `str` values in `sorted`. -/
def listLeB : List Char → List Char → Bool
  | [], _ => true
  | _ :: _, [] => false
  | a :: as, b :: bs => if a = b then listLeB as bs else decide (a.toNat < b.toNat)

/-- String comparison for `sorted(...)`. -/
def strLeB (a b : String) : Bool := listLeB a.data b.data

/-- Ordered insertion for the insertion sort below. -/
def insertLeB (le : String → String → Bool) (x : String) : List String → List String
  | [] => [x]
  | y :: t => if le x y then x :: y :: t else y :: insertLeB le x t

/-- Stable insertion sort (models Python `sorted`). -/
def sortLeB (le : String → String → Bool) : List String → List String
  | [] => []
  | x :: t => insertLeB le x (sortLeB le t)

/-- Python `sorted(list_of_strings)`. -/
def sortedStrings (l : List String) : List String := sortLeB strLeB l

/-- Descending insertion for the Nat insertion sort below. -/
def insertDescNat (x : Nat) : List Nat → List Nat
  | [] => [x]
  | y :: t => if y < x then x :: y :: t else y :: insertDescNat x t

/-- Descending insertion sort on naturals. -/
def sortDescNat : List Nat → List Nat
  | [] => []
  | x :: t => insertDescNat x (sortDescNat t)

/-- Stable-by-count-descending ordering of the distinct words of `l`,
    truncated to `n`: models `Counter(l).most_common(n)` keys. -/
def mostCommon (n : Nat) (l : List String) : List String :=
  let distinct := firstDedup l
  let csorted := sortDescNat (firstDedup (distinct.map (fun w => countOcc w l)))
  (csorted.flatMap (fun c => distinct.filter (fun w => countOcc w l = c))).take n

/-- Lines 124-178: frequency-based keyword extraction
    (`min_keyword_length = 3`, `top_n = 50`). -/
def extract_keywords_from_text (text : String) : List String :=
  if text = "" then []
  else
    let words := (engineFindall tokenPat (pyLower text).data).map
        (fun r => (⟨r.matched⟩ : String))
    let keywords := words.filter
        (fun w => 3 ≤ w.length && !(stopWords.contains w))
    mostCommon 50 keywords

/-- Line 221: `jd_keywords_set = set(extract_keywords_from_text(...))`. -/
def jdKeywordsSet (text : String) : List String :=
  firstDedup (extract_keywords_from_text text)

/-- Line 231: lowercased, truthiness-filtered resume skills. -/
def resumeSkillsLower (resume_skills : List String) : List String :=
  firstDedup ((resume_skills.filter (fun s => s ≠ "" && pyStrip s ≠ "")).map pyLower)

/-- Line 239: recover the original casing of a matched skill. -/
def originalSkillFor (resume_skills : List String) (r : String) : String :=
  ((resume_skills.find? (fun s => pyLower s == r)).getD r)

/-- Lines 234-242: resume skills matching JD keywords directly or as a
    substring of a keyword. -/
def matchingSkillsCL (resume_skills : List String) (text : String) : List String :=
  let jd := jdKeywordsSet text
  let rl := resumeSkillsLower resume_skills
  let found := rl.filterMap (fun r =>
    if jd.contains r || jd.any (fun kw => pyIn r kw) then
      some (originalSkillFor resume_skills r)
    else none)
  sortedStrings (firstDedup found)

/-- Lines 247-259: JD keywords not covered (directly or by a resume-skill
    substring), truncated to 15. -/
def missingSkillsCL (resume_skills : List String) (text : String) : List String :=
  let jd := jdKeywordsSet text
  let rl := resumeSkillsLower resume_skills
  (sortedStrings (firstDedup (jd.filter (fun kw =>
    !(rl.contains kw) && !(rl.any (fun r => pyIn r kw)))))).take 15

/-! ## JobDescriptionAnalyzer: seniority and years of experience

Embeds src/utils/job_analyzer.py, `extract_experience_level`
(lines 84-147). -/

/-- Digit class `[2-9]`. -/
def digit29 (c : Char) : Bool := '2' ≤ c && c ≤ '9'

/-- Digit class `[1-9]`. -/
def digit19 (c : Char) : Bool := '1' ≤ c && c ≤ '9'

/-- Sub-pattern `(?:[2-9]|[1-9]\d)` (alternatives in source order). -/
def num2to99 : RE := ralt [.cls digit29, rseq [.cls digit19, .cls isDigitChar]]

/-- Class `[-\s/to]` of a range separator run. -/
def rangeSepChar (c : Char) : Bool :=
  c = '-' || isPySpace c || c = '/' || c = 't' || c = 'o'

/-- EXPERIENCE_YEARS_PATTERN (lines 8-11), alternatives in source order. -/
def experienceYearsPat : RE :=
  .grp (rseq
    [.wb,
     ralt
       [rseq [num2to99, rws0, ralt [rlici "to", rlit "-", rlit "–", rlit "—"],
              rws0, num2to99],
        rseq [num2to99, rws0, rlit "+"],
        rseq [.cls digit19, .rep isDigitChar 0 none, .opt (rlit "+"), .wb],
        rseq [rlici "at least", rws1, .rep isDigitChar 1 (some 2)],
        rseq [rlici "minimum", rws1, .rep isDigitChar 1 (some 2)],
        rseq [ralt [rlici "a", rlici "one", rlici "two", rlici "three",
                    rlici "four", rlici "five", rlici "six", rlici "seven",
                    rlici "eight", rlici "nine", rlici "ten"],
              rws1,
              .opt (rseq [rlici "to", rws1,
                ralt [rlici "five", rlici "six", rlici "seven", rlici "eight",
                      rlici "nine", rlici "ten", rlici "eleven", rlici "twelve"]])]],
     rws1, rlici "year", .opt (rlici "s"),
     .opt (rseq [rws1, rlici "of"]),
     rws1,
     .opt (rseq [rlici "relevant", rws1]),
     .opt (rseq [rlici "work", rws1]),
     .opt (rseq [rlici "professional", rws1]),
     rlici "experience"])

/-- YEAR_NUMBER_PATTERN (line 13): `(\d{1,2})`. -/
def yearNumPat : RE := .grp (.rep isDigitChar 1 (some 2))

/-- All 1-2 digit chunks of a phrase (Python `findall`). -/
def yearNumbersIn (phrase : String) : List String :=
  (engineFindall yearNumPat phrase.data).map (fun r => (⟨r.matched⟩ : String))

/-- First 1-2 digit chunk of a phrase (Python `search`). -/
def firstYearNumberIn (phrase : String) : Option String :=
  (engineSearch yearNumPat phrase.data).map (fun r => (⟨r.matched⟩ : String))

/-- Normalisation of the matched experience phrase (lines 98-117). -/
def normalizeYears (phrase : String) : Option String :=
  if pyIn "to" phrase || pyIn "-" phrase || pyIn "–" phrase || pyIn "—" phrase then
    match yearNumbersIn phrase with
    | n0 :: n1 :: _ => some (n0 ++ "-" ++ n1 ++ " years")
    | [n0] => some ("Up to " ++ n0 ++ " years")
    | [] => none
  else if pyIn "+" phrase then
    (firstYearNumberIn phrase).map (fun n => n ++ "+ years")
  else if pyIn "at least" phrase || pyIn "minimum" phrase then
    (firstYearNumberIn phrase).map (fun n => n ++ "+ years")
  else
    match firstYearNumberIn phrase with
    | some n => some (n ++ " years")
    | none => some (phrase ++ " years")

/-- Years-of-experience half of `extract_experience_level` (lines 96-117). -/
def extract_years (text : String) : Option String :=
  match engineSearch experienceYearsPat text.data with
  | none => none
  | some r => normalizeYears (pyLower (pyStrip ⟨r.cap.getD r.matched⟩))

/-- Seniority keyword patterns (lines 122-130), per level, in source order. -/
def seniorityPatterns (level : String) : List RE :=
  if level = "Senior" then
    [rseq [.wb, rlit "senior", .wb], rseq [.wb, rlit "sr", .opt (rlit "."), .wb]]
  else if level = "Lead" then
    [rseq [.wb, rlit "lead", .wb], rseq [.wb, rlit "team lead", .wb]]
  else if level = "Junior" then
    [rseq [.wb, rlit "junior", .wb], rseq [.wb, rlit "jr", .opt (rlit "."), .wb],
     rseq [.wb, rlit "entry-level", .wb], rseq [.wb, rlit "graduate", .wb]]
  else if level = "Mid-Level" then
    [rseq [.wb, rlit "mid-level", .wb], rseq [.wb, rlit "intermediate", .wb]]
  else if level = "Principal" then
    [rseq [.wb, rlit "principal", .wb]]
  else if level = "Staff" then
    [rseq [.wb, rlit "staff engineer", .wb], rseq [.wb, rlit "staff software", .wb],
     rseq [.wb, rlit "staff level", .wb]]
  else if level = "Manager" then
    [rseq [.wb, rlit "manager", .wb], rseq [.wb, rlit "managing", .wb]]
  else []

/-- Whether some keyword pattern of `level` matches the lowercased text
    (lines 131-136). -/
def seniorityFound (level : String) (textLower : String) : Bool :=
  (seniorityPatterns level).any (fun p => (engineSearch p textLower.data).isSome)

/-- The fixed priority order of lines 139-145. -/
def seniorityPriority : List String :=
  ["Manager", "Principal", "Staff", "Lead", "Senior", "Mid-Level", "Junior"]

/-- Seniority half of `extract_experience_level`: the if/elif chain of
    lines 138-145 over the matched levels. -/
def extract_seniority (text : String) : Option String :=
  let tl := pyLower text
  if seniorityFound "Manager" tl then some "Manager"
  else if seniorityFound "Principal" tl then some "Principal"
  else if seniorityFound "Staff" tl then some "Staff"
  else if seniorityFound "Lead" tl then some "Lead"
  else if seniorityFound "Senior" tl then some "Senior"
  else if seniorityFound "Mid-Level" tl then some "Mid-Level"
  else if seniorityFound "Junior" tl then some "Junior"
  else none

/-- Lines 84-147: `extract_experience_level` returns the pair
    (years_experience_str, seniority_str). -/
def extract_experience_level (text : String) : Option String × Option String :=
  (extract_years text, extract_seniority text)

/-! ## SectionSegmenter: get_section_text of src/slm_module/parser.py

Embeds SECTION_KEYWORDS / ALL_SECTION_HEADERS (lines 42-54) and
`get_section_text` (lines 102-129).  The pattern is
`(?i)^\s*(KWS)[:\s-]*\n(.*?)(?=\n\s*(?:HDRS)[:\s-]*\n|\Z)` with
DOTALL|MULTILINE: the header match is line-anchored (`bol` search), and the
lazily-captured content extends to the first position where the
next-known-header lookahead fires, or to the end of text
(`takeUntilBoundary`). -/

/-- SECTION_KEYWORDS["summary"]. -/
def summaryKeywords : List String :=
  ["summary", "objective", "profile", "about me", "professional profile",
   "personal statement"]

/-- SECTION_KEYWORDS["skills"]. -/
def skillsKeywords : List String :=
  ["skills", "technical skills", "technologies", "proficiencies",
   "core competencies", "technical proficiencies"]

/-- SECTION_KEYWORDS["education"]. -/
def educationKeywords : List String :=
  ["education", "academic background", "qualifications", "academic training"]

/-- SECTION_KEYWORDS["experience"]. -/
def experienceKeywords : List String :=
  ["experience", "work experience", "professional experience",
   "employment history", "career history"]

/-- The extra headers appended at line 52. -/
def extraHeaders : List String :=
  ["contact", "personal details", "contact information", "projects", "awards",
   "publications", "references", "achievements", "certifications", "languages"]

/-- Stable insertion by descending length (for
    `sorted(..., key=len, reverse=True)`). -/
def insertLenDesc (x : String) : List String → List String
  | [] => [x]
  | y :: t => if y.length < x.length then x :: y :: t else y :: insertLenDesc x t

/-- Stable sort by descending length. -/
def sortLenDesc : List String → List String
  | [] => []
  | x :: t => insertLenDesc x (sortLenDesc t)

/-- ALL_SECTION_HEADERS_REGEX_PART alternatives (lines 48-54): all known
    headers, deduplicated, longest first. -/
def allSectionHeaders : List String :=
  sortLenDesc (firstDedup
    (summaryKeywords ++ skillsKeywords ++ educationKeywords ++
      experienceKeywords ++ extraHeaders))

/-- Character class `[:\s-]` after a header. -/
def headerTailChar (c : Char) : Bool := c = ':' || isPySpace c || c = '-'

/-- The lookahead pattern `\n\s*(?:HDRS)[:\s-]*\n`. -/
def headerBoundaryPat : RE :=
  rseq [rlit "\n", rws0, ralt (allSectionHeaders.map rlici),
        .rep headerTailChar 0 none, rlit "\n"]

/-- Does the next-known-header lookahead fire at this position? -/
def isHdrBoundary (s : List Char) : Bool :=
  !(mrun headerBoundaryPat ⟨none, s, none⟩).isEmpty

/-- The head of the section pattern: `^\s*(KWS)[:\s-]*\n`. -/
def sectionHeadPat (kws : List String) : RE :=
  rseq [rws0, ralt (kws.map rlici), .rep headerTailChar 0 none, rlit "\n"]

/-- The lazily-matched `(.*?)` content: everything up to the first position
    where the lookahead fires, or end of text. -/
def takeUntilBoundary : List Char → List Char
  | [] => []
  | c :: t => if isHdrBoundary (c :: t) then [] else c :: takeUntilBoundary t

/-- Lines 102-129: `get_section_text(full_text, section_keywords)`;
    `match.group(2).strip()` on success, None when no section header
    matches. -/
def get_section_text (full_text : String) (section_keywords : List String) :
    Option String :=
  match searchAux (sectionHeadPat section_keywords) true none full_text.data 0 with
  | none => none
  | some r => some (pyStrip ⟨takeUntilBoundary r.rest⟩)

/-! ## ResumeParser: src/utils/resume_parser.py

The spaCy pipeline is abstracted as an oracle `NLP`: `ents t` stands for
`nlp(t).ents` (label/text pairs) and `propn t` for the `Matcher` PROPN-pair
candidates on `nlp(t)`.  The module-level fallback `nlp = spacy.blank("en")`
(taken when the model cannot be loaded, lines 35-46) yields no entities and
no matcher hits, which is `blankNLP`.

Two module-level names are referenced but never defined in the file:
`RB_FIELDS_DEFINITIONS_DEFAULT` (line 348, reached for empty input) and
`JOB_DATE_PATTERN` (line 267, reached for any experience entry past the
length gate); `parse_skills` additionally reads the undefined name `text`
(line 143).  Those three lookups raise `NameError` at run time and are
modelled with `Except`. -/

/-- An NER entity: label and covered text. -/
structure Ent where
  label : String
  text : String

/-- Oracle abstraction of the spaCy pipeline. -/
structure NLP where
  ents : String → List Ent
  propn : String → List String

/-- The degraded pipeline `spacy.blank("en")`: no entities, no matches. -/
def blankNLP : NLP := ⟨fun _ => [], fun _ => []⟩

/-- ASCII letter. -/
def isAlphaChar (c : Char) : Bool := ('a' ≤ c && c ≤ 'z') || ('A' ≤ c && c ≤ 'Z')

/-- ASCII uppercase letter `[A-Z]`. -/
def isUpperChar (c : Char) : Bool := 'A' ≤ c && c ≤ 'Z'

/-- ASCII uppercasing of one character. -/
def upperChar (c : Char) : Char :=
  if 'a' ≤ c && c ≤ 'z' then Char.ofNat (c.toNat - 32) else c

/-- Python `str.capitalize()` (ASCII model): first character uppercased,
    rest lowercased. -/
def pyCapitalize (s : String) : String :=
  match s.data with
  | [] => ""
  | c :: t => ⟨upperChar c :: t.map pyLowerChar⟩

/-- Python `str.isupper()` (ASCII model): at least one letter and no
    lowercase letter. -/
def pyIsUpper (s : String) : Bool :=
  s.data.any isAlphaChar && s.data.all (fun c => !('a' ≤ c && c ≤ 'z'))

/-- Line 123: `skill.capitalize() if not skill.isupper() else skill`. -/
def canonSkill (s : String) : String := if pyIsUpper s then s else pyCapitalize s

/-- Class `[a-zA-Z0-9._%+-]` of the email local part. -/
def emailLocalChar (c : Char) : Bool :=
  isAlphaChar c || isDigitChar c || c = '.' || c = '_' || c = '%' || c = '+' || c = '-'

/-- Class `[a-zA-Z0-9.-]` of the email domain. -/
def emailDomChar (c : Char) : Bool :=
  isAlphaChar c || isDigitChar c || c = '.' || c = '-'

/-- EMAIL_PATTERN (line 10):
    `[a-zA-Z0-9._%+-]+@[a-zA-Z0-9.-]+\.[a-zA-Z]{2,}`. -/
def emailPat : RE :=
  rseq [.rep emailLocalChar 1 none, rlit "@", .rep emailDomChar 1 none,
        rlit ".", .rep isAlphaChar 2 none]

/-- Lines 93-96: `parse_email`. -/
def parse_email (text : String) : Option String :=
  (engineSearch emailPat text.data).map (fun r => (⟨r.matched⟩ : String))

/-- Class `[\s.-]` of phone separators. -/
def phoneSepChar (c : Char) : Bool := isPySpace c || c = '.' || c = '-'

/-- PHONE_PATTERN (line 11): `(\(?\d{3}\)?[\s.-]?)?\d{3}[\s.-]?\d{4}`. -/
def phonePat : RE :=
  rseq [.opt (rseq [.opt (rlit "("), .rep isDigitChar 3 (some 3),
                    .opt (rlit ")"), .opt (.cls phoneSepChar)]),
        .rep isDigitChar 3 (some 3), .opt (.cls phoneSepChar),
        .rep isDigitChar 4 (some 4)]

/-- Lines 98-101: `parse_phone`. -/
def parse_phone (text : String) : Option String :=
  (engineSearch phonePat text.data).map (fun r => (⟨r.matched⟩ : String))

/-- Class `[a-zA-Z\s.-]` of the name-line fallback. -/
def nameTailChar (c : Char) : Bool := isAlphaChar c || isPySpace c || c = '.' || c = '-'

/-- Line 89: full-match test for `^[A-Z][a-zA-Z\s.-]*$` (the Python `$`
    also accepts a position just before a final newline). -/
def nameLineOk (s : String) : Bool :=
  (mrun (rseq [.cls isUpperChar, .rep nameTailChar 0 none])
      ⟨none, s.data, none⟩).any (fun st => st.rest.isEmpty || st.rest = ['\n'])

/-- Lines 71-91: `parse_name(doc, text_lines)`; `ents`/`propns` stand for
    `doc.ents` and the PROPN-pair `Matcher` candidates of the doc. -/
def parse_name (ents : List Ent) (propns : List String) (text_lines : List String) :
    Option String :=
  match ents.find? (fun e => e.label == "PERSON") with
  | some e => some (pyStrip e.text)
  | none =>
    match (propns.map pyStrip).find? (fun c => decide ((splitWs c).length ≤ 3)) with
    | some c => some c
    | none =>
      match text_lines with
      | [] => none
      | l0 :: _ =>
        let first_line := pyStrip l0
        if decide ((splitWs first_line).length ≤ 4) && nameLineOk first_line then
          some first_line
        else none

/-- Class `[:\n]` closing a section header. -/
def colonNLChar (c : Char) : Bool := c = ':' || c = '\n'

/-- EDUCATION_SECTION_PATTERN (lines 13-15). -/
def eduSectionPat : RE :=
  rseq [rlit "\n", rws0,
        ralt [rlici "education", rlici "academic background", rlici "qualifications"],
        rws0, .cls colonNLChar]

/-- EXPERIENCE_SECTION_PATTERN (lines 16-18). -/
def expSectionPat : RE :=
  rseq [rlit "\n", rws0,
        ralt [rlici "experience", rlici "work experience",
              rlici "professional experience", rlici "employment history"],
        rws0, .cls colonNLChar]

/-- SUMMARY_SECTION_PATTERN (lines 19-21). -/
def summarySectionPat : RE :=
  rseq [rlit "\n", rws0,
        ralt [rlici "summary", rlici "objective", rlici "profile",
              rlici "about me", rlici "professional profile",
              rlici "personal statement"],
        rws0, .cls colonNLChar]

/-- SECTION_ENDERS_PATTERN (lines 28-31). -/
def sectionEndersPat : RE :=
  rseq [rlit "\n", rws0,
        ralt [rlici "education", rlici "experience", rlici "skills",
              rlici "projects", rlici "awards", rlici "publications",
              rlici "references", rlici "technical skills",
              rlici "work experience", rlici "professional experience",
              rlici "employment history", rlici "academic background",
              rlici "qualifications", rlici "interests", rlici "languages",
              rlici "certifications"],
        rws0, .cls colonNLChar]

/-- Lines 164-176: `_extract_section_text(pattern, text)`: the header match
    (group 0) plus the following content up to the next section ender. -/
def sectionText (pat : RE) (text : String) : Option String :=
  match engineSearch pat text.data with
  | none => none
  | some r =>
    match engineSearch sectionEndersPat r.rest with
    | some r2 => some ⟨r.matched ++ r.rest.take r2.startIdx⟩
    | none => some ⟨r.matched ++ r.rest⟩

/-- Lines 178-186: `parse_summary` (drop the header from the block, strip). -/
def parse_summary (text : String) : Option String :=
  match sectionText summarySectionPat text with
  | none => none
  | some block =>
    match engineMatch summarySectionPat block.data with
    | some hm => some (pyStrip ⟨block.data.drop hm.matched.length⟩)
    | none => none

/-- The static skill dictionary of lines 106-116. -/
def skillsListKeywords : List String :=
  ["python", "java", "c++", "c#", "javascript", "typescript", "sql", "nosql",
   "mongodb", "postgresql",
   "react", "angular", "vue", "node.js", "django", "flask", "spring boot",
   "html", "css", "scss", "sass",
   "aws", "azure", "gcp", "docker", "kubernetes", "k8s", "terraform",
   "ansible", "ci/cd", "jenkins",
   "machine learning", "deep learning", "nlp", "natural language processing",
   "computer vision", "ai",
   "data analysis", "data science", "data visualization", "pandas", "numpy",
   "scikit-learn", "tensorflow", "pytorch",
   "agile", "scrum", "jira", "git", "github", "gitlab", "restful apis",
   "microservices", "api design",
   "communication", "teamwork", "problem solving", "leadership",
   "project management", "product management",
   "big data", "spark", "hadoop", "kafka", "data warehousing", "etl",
   "data modeling", "statistics",
   "cybersecurity", "penetration testing", "cryptography", "network security",
   "siem", "ui/ux design"]

/-- The speculative tech markers of line 134. -/
def techMarkers : List String := ["sdk", "api", "framework", "platform", "library"]

/-- Lines 103-162: `parse_skills(doc, text_lower)`.  Methods 1 and 2 build
    the `found_skills` set, but method 3 (line 143) calls
    `skill_section_regex.finditer(text)` where `text` is not a name in the
    function (nor a module global), so the call raises `NameError` before
    the function can return; the remainder of the method is dead code. -/
def parse_skills (ents : List Ent) (text_lower : String) : Except String (List String) :=
  let found1 := (skillsListKeywords.filter (fun k =>
      (engineSearch (rseq [.wb, rlit k, .wb]) text_lower.data).isSome)).map canonSkill
  let _found2 := found1 ++ ents.filterMap (fun e =>
      if e.label == "ORG" || e.label == "PRODUCT" then
        let etl := pyLower e.text
        if skillsListKeywords.contains etl then some (canonSkill etl)
        else if techMarkers.any (fun kw => pyIn kw etl) then some (pyStrip e.text)
        else none
      else none)
  .error "NameError: name text is not defined"

/-- Class `[\w\s,.&()-]` of the degree body (also the education split). -/
def degreeBodyChar (c : Char) : Bool :=
  isWordChar c || isPySpace c || c = ',' || c = '.' || c = '&' || c = '(' ||
    c = ')' || c = '-'

/-- The degree pattern of line 196 (IGNORECASE), alternatives in source
    order; the single group captures `([\w\s,.&()-]+)`. -/
def degreePat : RE :=
  rseq [.wb,
    ralt
      [rseq [rlici "b", .opt (rlit "."), rlici "s", .opt (rlit "."), .opt (rlici "c")],
       rseq [rlici "m", .opt (rlit "."), rlici "s", .opt (rlit "."), .opt (rlici "c")],
       rseq [rlici "ph", .opt (rlit "."), rlici "d"],
       rseq [rlici "m", .opt (rlit "."), rlici "b", .opt (rlit "."), rlici "a"],
       rseq [rlici "b", .opt (rlit "."), rlici "a", .opt (rlit ".")],
       rlici "associate", rlici "diploma", rlici "certificate",
       rseq [rlici "bachelor",
             .opt (ralt [rlici " of", rlici " of science", rlici " of arts"])],
       rseq [rlici "master",
             .opt (ralt [rlici " of", rlici " of science", rlici " of arts"])],
       rseq [rlici "doctor", .opt (rlici " of philosophy")]],
    .wb, .opt (ralt [rlici " in", rlici " of"]), rws0,
    .grp (.rep degreeBodyChar 1 none)]

/-- Month-name alternation of the date pattern (IGNORECASE). -/
def monthPart : RE :=
  rseq [ralt [rlici "jan", rlici "feb", rlici "mar", rlici "apr", rlici "may",
              rlici "jun", rlici "jul", rlici "aug", rlici "sep", rlici "oct",
              rlici "nov", rlici "dec"],
        .opt (rlit "."), rws0]

/-- `(?:\d{4}|\d{2})`. -/
def yearPart : RE := ralt [.rep isDigitChar 4 (some 4), .rep isDigitChar 2 (some 2)]

/-- The education date pattern of line 197 (IGNORECASE). -/
def eduDatePat : RE :=
  rseq [.wb, .opt monthPart, yearPart, .wb,
        .opt (ralt
          [rseq [.rep rangeSepChar 1 none, .wb, .opt monthPart, yearPart, .wb],
           rseq [.wb, rlici "present", .wb],
           rseq [.wb, rlici "current", .wb]])]

/-- Class of the institution-candidate pattern of line 227 (includes the
    ASCII apostrophe). -/
def instChar (c : Char) : Bool :=
  isWordChar c || isPySpace c || c = '.' || c = '&' || c = Char.ofNat 39 ||
    c = '(' || c = ')' || c = '-'

/-- Line 227: `([A-Z][\w\s.&\'()-]+(?:University|College|Institute|School|Academy)?\b)`
    (case-sensitive). -/
def pInstPat : RE :=
  .grp (rseq [.cls isUpperChar, .rep instChar 1 none,
              .opt (ralt [rlit "University", rlit "College", rlit "Institute",
                          rlit "School", rlit "Academy"]),
              .wb])

/-- Institution keyword markers of line 205. -/
def eduKwMarkers : List String :=
  ["university", "college", "institute", "school", "academy"]

/-- One structured education entry. -/
structure EduEntry where
  degree : String
  institution : String
  date : String
deriving DecidableEq

/-- One structured experience entry. -/
structure ExpEntry where
  job_title : String
  company : String
  date_range : String
  description : String
deriving DecidableEq

/-- The field-extraction part of `_parse_single_education_entry`
    (lines 194-230), applied to the stripped entry text: returns the
    (degree, institution, date) triple before the sentinel substitution. -/
def eduEntryFields (m : NLP) (t : String) :
    Option String × Option String × Option String :=
  let dmOpt := engineSearch degreePat t.data
  let degree : Option String :=
    match dmOpt with
    | some dm =>
      if (dm.cap.getD []) ≠ [] then some (pyRstripComma (pyStrip ⟨dm.cap.getD []⟩))
      else some ⟨dm.matched⟩
    | none => none
  let instDate := (m.ents t).foldl
    (fun (acc : Option String × Option String) e =>
      if e.label == "ORG" && !(truthy acc.1) then
        if eduKwMarkers.any (fun kw => pyIn kw (pyLower e.text)) then
          (some (pyStrip e.text), acc.2)
        else acc
      else if e.label == "DATE" && !(truthy acc.2) then
        if (engineSearch eduDatePat e.text.data).isSome then
          (acc.1, some (pyStrip e.text))
        else acc
      else acc) (none, none)
  let date1 : Option String :=
    if truthy instDate.2 then instDate.2
    else
      match engineSearch eduDatePat t.data with
      | some r => some (pyStrip ⟨r.matched⟩)
      | none => instDate.2
  let inst1 : Option String :=
    if !(truthy instDate.1) && (truthy degree || truthy date1) then
      match dmOpt with
      | some dm =>
        let remaining0 := pyStrip ⟨t.data.drop (dm.startIdx + dm.matched.length)⟩
        let remaining :=
          if truthy date1 then
            match firstIndexOf (pyLower (date1.getD "")).data (pyLower remaining0).data with
            | some idx => pyStrip ⟨remaining0.data.take idx⟩
            | none => remaining0
          else remaining0
        match (engineFindall pInstPat remaining.data).map (fun r => r.cap.getD r.matched) with
        | g :: _ => some (pyRstripComma (pyStrip ⟨g⟩))
        | [] =>
          if remaining ≠ "" && decide ((splitWs remaining).length < 7) then
            some (pyRstripComma (pyStrip remaining))
          else instDate.1
      | none => instDate.1
    else instDate.1
  (degree, inst1, date1)

/-- Lines 189-234: `_parse_single_education_entry` — strip, minimum-content
    gate (< 10), field extraction, and the drop-if-no-usable-field guard of
    line 232. -/
def parse_single_education_entry (m : NLP) (entry_text : String) : Option EduEntry :=
  let t := pyStrip entry_text
  if t = "" || t.data.length < 10 then none
  else
    let f := eduEntryFields m t
    if truthy f.1 || truthy f.2.1 || truthy f.2.2 then
      some ⟨orNA f.1, orNA f.2.1, orNA f.2.2⟩
    else none

/-- The lookahead of the education split (line 247, case-sensitive). -/
def eduSplitLook : RE :=
  rseq [rws0,
    ralt [rseq [.cls isUpperChar, .rep degreeBodyChar 1 none, rws0,
                ralt [rlit "University", rlit "College", rlit "Institute",
                      rlit "School", rlit "Academy"]],
          ralt [rseq [rlit "B", .opt (rlit "."), rlit "S"],
                rseq [rlit "M", .opt (rlit "."), rlit "S"],
                rseq [rlit "Ph", .opt (rlit "."), rlit "D"],
                rlit "Bachelor", rlit "Master", rlit "Doctor"]]]

/-- The education entry-splitting pattern of line 247:
    `\n\s*\n+|\n(?=...)`. -/
def eduSplitPat : RE :=
  ralt [rseq [rlit "\n", rws0, .rep (fun c => c = '\n') 1 none],
        rseq [rlit "\n", .look eduSplitLook]]

/-- The per-piece step of the loop at lines 249-254 (the per-entry
    `try/except` cannot fire in this pure embedding). -/
def eduPieceParse (m : NLP) (piece : String) : Option EduEntry :=
  if pyStrip piece ≠ "" then parse_single_education_entry m piece else none

/-- Lines 236-255: `parse_education`. -/
def parse_education (m : NLP) (text : String) : List EduEntry :=
  match sectionText eduSectionPat text with
  | none => []
  | some block0 =>
    let block :=
      match engineMatch eduSectionPat block0.data with
      | some hm => pyStrip ⟨block0.data.drop hm.matched.length⟩
      | none => block0
    (engineSplit eduSplitPat block.data).filterMap
      (fun piece => eduPieceParse m (⟨piece⟩ : String))

/-- Lines 258-318: `_parse_single_experience_entry` — strip and
    minimum-content gate (< 15); past the gate, line 267 reads the
    module-level name `JOB_DATE_PATTERN`, which is only mentioned in a
    comment (line 24) and never defined, so the function raises `NameError`
    there and the title/company/description logic below is unreachable. -/
def parse_single_experience_entry (_m : NLP) (entry_text : String) :
    Except String (Option ExpEntry) :=
  let t := pyStrip entry_text
  if t = "" || t.data.length < 15 then .ok none
  else .error "NameError: name JOB_DATE_PATTERN is not defined"

/-- Class of the experience split: word and whitespace characters plus
    period, comma, ampersand, apostrophe, parentheses, slash and hyphen. -/
def expTitleChar (c : Char) : Bool :=
  isWordChar c || isPySpace c || c = '.' || c = ',' || c = '&' ||
    c = Char.ofNat 39 || c = '(' || c = ')' || c = '/' || c = '-'

/-- The lookahead of the experience split (lines 330-332, case-sensitive). -/
def expSplitLook : RE :=
  rseq [rws0,
    ralt [rseq [.cls isUpperChar, .rep expTitleChar 5 none, rws0,
                .opt (ralt [rlit "at", rlit "@", rlit ",", rlit "-", rlit "|"]),
                rws0, .cls isUpperChar, .rep expTitleChar 2 none],
          rseq [ralt [rlit "Jan", rlit "Feb", rlit "Mar", rlit "Apr",
                      rlit "May", rlit "Jun", rlit "Jul", rlit "Aug",
                      rlit "Sep", rlit "Oct", rlit "Nov", rlit "Dec"], .wb],
          rseq [.rep isDigitChar 4 (some 4), rws0, rlit "-", rws0,
                .rep isDigitChar 4 (some 4)]]]

/-- The experience entry-splitting pattern of lines 330-333:
    `\n\s*\n\s*\n*|\n(?=...)`. -/
def expSplitPat : RE :=
  ralt [rseq [rlit "\n", rws0, rlit "\n", rws0, .rep (fun c => c = '\n') 0 none],
        rseq [rlit "\n", .look expSplitLook]]

/-- The per-piece step of the loop at lines 334-339: the per-entry
    `try/except` catches the `NameError` and skips the entry. -/
def expPieceParse (m : NLP) (piece : String) : Option ExpEntry :=
  if pyStrip piece ≠ "" then
    match parse_single_experience_entry m piece with
    | .ok r => r
    | .error _ => none
  else none

/-- Lines 320-341: `parse_experience`. -/
def parse_experience (m : NLP) (text : String) : List ExpEntry :=
  match sectionText expSectionPat text with
  | none => []
  | some block0 =>
    let block :=
      match engineMatch expSectionPat block0.data with
      | some hm => pyStrip ⟨block0.data.drop hm.matched.length⟩
      | none => block0
    (engineSplit expSplitPat block.data).filterMap
      (fun piece => expPieceParse m (⟨piece⟩ : String))

/-- The record assembled by `parse_resume_text` (lines 357-361). -/
structure ResumeRecord where
  name : String
  email : String
  phone : String
  skills : List String
  summary : String
  education : List EduEntry
  experience : List ExpEntry
deriving DecidableEq

/-- The placeholder appended at line 383. -/
def eduPlaceholder : EduEntry := ⟨"N/A", "N/A", "N/A"⟩

/-- The placeholder appended at line 384. -/
def expPlaceholder : ExpEntry := ⟨"N/A", "N/A", "N/A", "N/A"⟩

/-- Lines 380-384: the final normalization replaces empty skills with
    ["N/A"] and empty education/experience with a single all-sentinel
    placeholder entry each. -/
def finalizeParsedData (d : ResumeRecord) : ResumeRecord :=
  { d with
    skills := if d.skills = [] then ["N/A"] else d.skills
    education := if d.education = [] then [eduPlaceholder] else d.education
    experience := if d.experience = [] then [expPlaceholder] else d.experience }

/-- Lines 344-386: `parse_resume_text`.  For falsy input, line 348 returns
    `RB_FIELDS_DEFINITIONS_DEFAULT.copy()`, but that module-level name is
    never defined (it is only "assumed" in the comment at line 355), so the
    call raises `NameError`.  Otherwise the try-block runs name, email and
    phone extraction, then `parse_skills` raises `NameError` (line 143); the
    except-branch (lines 373-378) repairs key/type mismatches — the identity
    in this typed embedding — and the final normalization applies.  The
    summary/education/experience assignments after the skills step are kept
    for the (never taken in the actual module) successful branch. -/
def parse_resume_text (m : NLP) (text : String) : Except String ResumeRecord :=
  if text = "" then
    .error "NameError: name RB_FIELDS_DEFINITIONS_DEFAULT is not defined"
  else
    let text_lower := pyLower text
    let text_lines := splitNL text
    let d1 : ResumeRecord :=
      { name := orNA (parse_name (m.ents text) (m.propn text) text_lines)
        email := orNA (parse_email text)
        phone := orNA (parse_phone text)
        skills := []
        summary := "N/A"
        education := []
        experience := [] }
    match parse_skills (m.ents text) text_lower with
    | .error _ => .ok (finalizeParsedData d1)
    | .ok sk =>
      .ok (finalizeParsedData { d1 with
        skills := sk
        summary := orNA (parse_summary text)
        education := parse_education m text
        experience := parse_experience m text })

/-! ## The SLM parsing module: src/slm_module/parser.py

The transformers NER pipeline is abstracted as `Option (String → List Ent)`:
`none` is the `ner_pipeline is None` state after a failed `load_slm_model()`,
and `some pl` stands for a loaded pipeline where `pl t` returns the grouped
entities of `pl(t)` (label = entity_group, text = word).  All Python regex
searches of this module carry `re.IGNORECASE` unless noted. -/

/-- A transformers NER pipeline, when loaded. -/
def SlmPipe : Type := String → List Ent

/-- Contact sub-record of EXPECTED_FIELDS (line 8). -/
structure SlmContact where
  email : Option String
  phone : Option String
  linkedin : Option String
  github : Option String
deriving DecidableEq

/-- Education item of the SLM parser (line 11 / line 303). -/
structure SlmEduItem where
  institution : String
  degree : String
  dates : String
  details : String
deriving DecidableEq

/-- Experience item of the SLM parser (line 12 / line 375). -/
structure SlmExpItem where
  company : String
  job_title : String
  dates : String
  description : String
deriving DecidableEq

/-- EXPECTED_FIELDS / the record returned by `parse_resume_text_with_slm`. -/
structure SlmRecord where
  name : Option String
  contact_info : SlmContact
  summary : Option String
  skills : List String
  education : List SlmEduItem
  experience : List SlmExpItem
deriving DecidableEq

/-- Lines 90-100: `initialize_parsed_data()` — a fresh copy of
    EXPECTED_FIELDS. -/
def initialize_parsed_data : SlmRecord :=
  { name := none
    contact_info := { email := none, phone := none, linkedin := none, github := none }
    summary := none
    skills := []
    education := []
    experience := [] }

/-- Lines 131-151: `extract_entities_from_text` — empty when the pipeline is
    unavailable or the text is empty; the `except` branch cannot fire for a
    pure oracle. -/
def extract_entities_from_text (p : Option SlmPipe) (text : String)
    (entity_labels : List String) : List String :=
  match p with
  | none => []
  | some pl =>
    if text = "" then []
    else (pl text).filterMap (fun e =>
      if entity_labels.contains e.label then some e.text else none)

/-- PHONE_REGEX (line 16): `\(?\d{3}\)?[-.\s]?\d{3}[-.\s]?\d{4}`. -/
def slmPhonePat : RE :=
  rseq [.opt (rlit "("), .rep isDigitChar 3 (some 3), .opt (rlit ")"),
        .opt (.cls phoneSepChar), .rep isDigitChar 3 (some 3),
        .opt (.cls phoneSepChar), .rep isDigitChar 4 (some 4)]

/-- Class `[a-zA-Z0-9_.-]` of profile slugs. -/
def slugChar (c : Char) : Bool :=
  isAlphaChar c || isDigitChar c || c = '_' || c = '.' || c = '-'

/-- LINKEDIN_REGEX (line 17). -/
def linkedinPat : RE := rseq [rlit "linkedin.com/in/", .rep slugChar 1 none]

/-- GITHUB_REGEX (line 18). -/
def githubPat : RE := rseq [rlit "github.com/", .rep slugChar 1 none]

/-- Lines 229-232: `", ".join(set(REGEX.findall(resume_text))) or None`. -/
def joinFoundOrNone (pat : RE) (text : String) : Option String :=
  let j := joinSep ", "
    (firstDedup ((engineFindall pat text.data).map (fun r => (⟨r.matched⟩ : String))))
  if j = "" then none else some j

/-- Month alternation of the DATE_REGEX_PATTERNS (IGNORECASE). -/
def monthAlt12 : RE :=
  ralt [rlici "jan", rlici "feb", rlici "mar", rlici "apr", rlici "may",
        rlici "jun", rlici "jul", rlici "aug", rlici "sep", rlici "oct",
        rlici "nov", rlici "dec"]

/-- `\d{4}`. -/
def d4 : RE := .rep isDigitChar 4 (some 4)

/-- DATE_REGEX_PATTERNS (lines 22-39), in source order; each has exactly one
    capturing group. -/
def dateRegexPatterns : List RE :=
  [rseq [.wb, .grp (rseq [monthAlt12, .opt (rlit "."), .cls isPySpace, d4, rws0,
          rlit "-", rws0, monthAlt12, .opt (rlit "."), .cls isPySpace, d4]), .wb],
   rseq [.wb, .grp (rseq [monthAlt12, .opt (rlit "."), .cls isPySpace, d4, rws0,
          rlit "-", rws0, ralt [rlici "present", rlici "current"]]), .wb],
   rseq [.wb, .grp (rseq [d4, rws0, rlit "-", rws0, d4]), .wb],
   rseq [.wb, .grp (rseq [d4, rws0, rlit "-", rws0,
          ralt [rlici "present", rlici "current"]]), .wb],
   rseq [.wb, .grp (rseq [rlici "graduated", .cls isPySpace,
          .opt (rseq [monthAlt12, .opt (rlit "."), .cls isPySpace]), d4]), .wb],
   rseq [.wb, .grp (rseq [monthAlt12, .opt (rlit "."), .cls isPySpace, d4]), .wb],
   rseq [.wb, .grp (rseq [ralt [rlici "spring", rlici "summer", rlici "fall",
          rlici "winter"], .cls isPySpace, d4]), .wb],
   rseq [.wb, .grp d4, .wb]]

/-- Stable ascending insertion by a natural-number key. -/
def insertKeyAscNat (key : String → Nat) (x : String) : List String → List String
  | [] => [x]
  | y :: t => if key x ≤ key y then x :: y :: t else y :: insertKeyAscNat key x t

/-- Stable ascending insertion sort by a natural-number key
    (models Python `sorted(..., key=...)`). -/
def sortKeyAscNat (key : String → Nat) : List String → List String
  | [] => []
  | x :: t => insertKeyAscNat key x (sortKeyAscNat key t)

/-- Lines 153-201: `extract_dates(text, patterns)` — collect the group-1
    matches of every pattern, strip, deduplicate (set modelled in
    first-occurrence order), order by position of first occurrence in the
    text, and with more than one candidate return the longest. -/
def extract_dates (text : String) (patterns : List RE) : Option String :=
  if text = "" then none
  else
    let found := patterns.flatMap (fun p =>
      (engineFindall p text.data).filterMap (fun r =>
        let d := (⟨r.cap.getD r.matched⟩ : String)
        if d ≠ "" && pyStrip d ≠ "" then some (pyStrip d) else none))
    if found = [] then none
    else
      let uniq := sortKeyAscNat
        (fun d => (firstIndexOf d.data text.data).getD 0) (firstDedup found)
      if 1 < uniq.length then
        match sortLenDesc uniq with
        | x :: _ => some x
        | [] => none
      else
        match uniq with
        | x :: _ => some x
        | [] => none

/-- Python `str.replace(old, new, 1)` (first occurrence only). -/
def replaceFirst (old new : List Char) : List Char → List Char
  | [] => []
  | c :: t =>
    if old ≠ [] && isPrefixOfCL old (c :: t) then new ++ (c :: t).drop old.length
    else c :: replaceFirst old new t

/-- Builder for the simple patterns the SLM module assembles from keyword
    strings (`re.escape`-free, IGNORECASE): a backslash escapes the next
    character, `.` matches any character but newline, `+` and `?` quantify
    the previous single-character atom, everything else is a literal. -/
def buildSimpleRE : List RE → List Char → RE
  | acc, [] => rseq acc.reverse
  | acc, '\\' :: c :: rest => buildSimpleRE (.lici [pyLowerChar c] :: acc) rest
  | acc, '.' :: rest => buildSimpleRE (.cls (fun c => c ≠ '\n') :: acc) rest
  | acc, '+' :: rest =>
    match acc with
    | .lici [c] :: acc2 =>
      buildSimpleRE (.rep (fun x => pyLowerChar x = c) 1 none :: acc2) rest
    | .cls p :: acc2 => buildSimpleRE (.rep p 1 none :: acc2) rest
    | a :: acc2 => buildSimpleRE (a :: acc2) rest
    | [] => buildSimpleRE acc rest
  | acc, '?' :: rest =>
    match acc with
    | a :: acc2 => buildSimpleRE (.opt a :: acc2) rest
    | [] => buildSimpleRE acc rest
  | acc, c :: rest => buildSimpleRE (.lici [pyLowerChar c] :: acc) rest

/-- Line 276: `skill_keyword_pattern.replace('+', '\+')`. -/
def pyReplacePlus (s : String) : String :=
  ⟨s.data.flatMap (fun c => if c = '+' then ['\\', '+'] else [c])⟩

/-- The common-skills pattern list of lines 262-272 (raw regex fragments;
    note `c\+\+` carries explicit backslashes in the source literal). -/
def slmCommonSkills : List String :=
  ["python", "java", "javascript", "c\\+\\+", "c#", "sql", "react", "angular",
   "vue", "node.js", "ruby", "php",
   "aws", "azure", "gcp", "docker", "kubernetes", "terraform", "ansible",
   "machine learning", "data analysis", "nlp", "computer vision", "deep learning",
   "spring boot", "django", "flask", "express.js", ".net",
   "pandas", "numpy", "scipy", "matplotlib", "seaborn", "tensorflow",
   "pytorch", "keras", "scikit-learn",
   "git", "jira", "confluence", "agile", "scrum", "devops", "ci/cd",
   "html", "css", "restful apis", "graphql", "microservices",
   "data visualization", "bi tools", "tableau", "power bi",
   "project management", "product management"]

/-- Line 278: `\b + safe + \b` search pattern for one skill keyword. -/
def slmSkillSearchRE (kw : String) : RE :=
  rseq [.wb, buildSimpleRE [] (pyReplacePlus kw).data, .wb]

/-- Line 280: the same pattern with the keyword captured for original-casing
    recovery. -/
def slmSkillCaptureRE (kw : String) : RE :=
  rseq [.wb, .grp (buildSimpleRE [] (pyReplacePlus kw).data), .wb]

/-- Lines 256-287: the skills-section step, given a loaded pipeline and the
    isolated skills-section text. -/
def slmSkillsStep (pl : SlmPipe) (skills_text : String) : List String :=
  let extracted := extract_entities_from_text (some pl) skills_text ["MISC", "ORG"]
  let withKw := slmCommonSkills.foldl (fun acc kw =>
    if (engineSearch (slmSkillSearchRE kw) skills_text.data).isSome then
      let skill_to_add :=
        match engineSearch (slmSkillCaptureRE kw) skills_text.data with
        | some r => (⟨r.cap.getD r.matched⟩ : String)
        | none => kw
      if acc.contains skill_to_add then acc else acc ++ [skill_to_add]
    else acc) extracted
  if withKw ≠ [] then sortedStrings (firstDedup withKw)
  else ["Skills not specifically itemized or section not found."]

/-- The education split lookahead of lines 294-297 (IGNORECASE),
    alternatives in source order. -/
def slmEduSplitLook : RE :=
  rseq [rws0,
    ralt [rseq [rlici "b", .opt (rlit "."), rlici "s"],
          rseq [rlici "m", .opt (rlit "."), rlici "s"],
          rseq [rlici "ph", .opt (rlit "."), rlici "d"],
          rlici "bachelor", rlici "master", rlici "doctor",
          rlici "associate", rlici "diploma", rlici "certificate",
          rseq [rlici "b", .opt (rlit "."), rlici "a"],
          rseq [rlici "m", .opt (rlit "."), rlici "a"],
          rlici "mba",
          rseq [rlici "b", .opt (rlit "."), rlici "eng"],
          rseq [rlici "m", .opt (rlit "."), rlici "eng"]],
    .wb]

/-- The education entry-splitting pattern of lines 294-297. -/
def slmEduSplitPat : RE :=
  ralt [rseq [rlit "\n", rws0, .rep (fun c => c = '\n') 1 none],
        rseq [rlit "\n", .look slmEduSplitLook]]

/-- Institution markers of line 316 (adds "polytechnic" to the utils set). -/
def slmInstMarkers : List String :=
  ["university", "college", "institute", "school", "academy", "polytechnic"]

/-- The degree keyword fragments of line 323 (raw strings with embedded
    backslashes, exactly as the source writes them). -/
def slmDegreeKeywords : List String :=
  ["B\\.S", "M\\.S", "Ph\\.D", "Bachelor", "Master", "Doctor", "Associate",
   "Diploma", "Certificate", "B\\.A", "M\\.A", "MBA", "B\\.Eng", "M\\.Eng",
   "BSc", "MSc"]

/-- Lines 330, 337, 340: `keyword.replace('.', '\.?')`. -/
def pyReplaceDotOpt (s : String) : String :=
  ⟨s.data.flatMap (fun c => if c = '.' then ['\\', '.', '?'] else [c])⟩

/-- Line 330: `\b + keyword.replace('.','\.?') + \b` over a MISC entity. -/
def slmDegreeKwRE (kw : String) : RE :=
  rseq [.wb, buildSimpleRE [] (pyReplaceDotOpt kw).data, .wb]

/-- Class `[\w\s]`. -/
def wordOrSpaceChar (c : Char) : Bool := isWordChar c || isPySpace c

/-- Line 337: `\b(KW[\w\s]*)`. -/
def slmDegreeTextRE (kw : String) : RE :=
  rseq [.wb, .grp (rseq [buildSimpleRE [] (pyReplaceDotOpt kw).data,
        .rep wordOrSpaceChar 0 none])]

/-- Line 340: `\b(KW(?:\s+(?:of|in)\s+[\w\s]+)?)`. -/
def slmDegreeFullRE (kw : String) : RE :=
  rseq [.wb, .grp (rseq [buildSimpleRE [] (pyReplaceDotOpt kw).data,
        .opt (rseq [rws1, ralt [rlici "of", rlici "in"], rws1,
                    .rep wordOrSpaceChar 1 none])])]

/-- Pattern `\s{2,}` of lines 352 and 416. -/
def multiSpacePat : RE := .rep isPySpace 2 none

/-- Lines 303-354: one education entry of the SLM parser, applied to a
    stripped block past the length gate. -/
def slmEduEntry (pl : SlmPipe) (t0 : String) : SlmEduItem :=
  let dateOpt := extract_dates t0 dateRegexPatterns
  let dates := dateOpt.getD "N/A"
  let t1 := match dateOpt with
    | some d => pyStrip ⟨replaceAll d.data [] t0.data⟩
    | none => t0
  let ents := pl t1
  let institutions := ents.filterMap (fun e =>
    if e.label == "ORG" && slmInstMarkers.any (fun kw => pyIn kw (pyLower e.text))
    then some e.text else none)
  let inst := if institutions ≠ [] then joinSep ", " institutions else "N/A"
  let t2 := if institutions ≠ [] then
      institutions.foldl (fun acc i => pyStrip ⟨replaceAll i.data [] acc.data⟩) t1
    else t1
  let degrees_misc := ents.filterMap (fun e =>
    if e.label == "MISC" then some e.text else none)
  let found1 := degrees_misc.foldl (fun acc me =>
    if slmDegreeKeywords.any (fun kw =>
        (engineSearch (slmDegreeKwRE kw) me.data).isSome) then
      if acc.contains me then acc else acc ++ [me]
    else acc) ([] : List String)
  let found2 :=
    if found1 = [] then
      slmDegreeKeywords.foldl (fun acc kw =>
        match engineSearch (slmDegreeTextRE kw) t2.data with
        | some r =>
          let deg_text :=
            match engineSearch (slmDegreeFullRE kw) t2.data with
            | some r2 => pyRstripComma (pyStrip ⟨r2.cap.getD r2.matched⟩)
            | none => pyRstripComma (pyStrip ⟨r.cap.getD r.matched⟩)
          if acc.contains deg_text then acc else acc ++ [deg_text]
        | none => acc) ([] : List String)
    else found1
  let degree := if found2 ≠ [] then joinSep ", " (sortLenDesc (firstDedup found2))
    else "N/A"
  let t3 :=
    if found2 ≠ [] then
      found2.foldl (fun acc deg =>
        pyStrip ⟨engineSub (rseq [.wb, .lici (pyLower deg).data, .wb])
          false [] acc.data⟩) t2
    else t2
  let details := pyStrip ⟨engineSub multiSpacePat false [' '] t3.data⟩
  { institution := inst, degree := degree, dates := dates, details := details }

/-- Lines 290-359: the education step of the SLM parser. -/
def slmEducationStep (pl : SlmPipe) (resume_text : String) : List SlmEduItem :=
  match get_section_text resume_text educationKeywords with
  | none =>
    [{ institution := "N/A", degree := "N/A", dates := "N/A",
       details := "Education section not found." }]
  | some eduText =>
    let items := (engineSplit slmEduSplitPat eduText.data).filterMap (fun piece =>
      let t := pyStrip (⟨piece⟩ : String)
      if t = "" || t.data.length < 10 then none else some (slmEduEntry pl t))
    if items = [] then
      [{ institution := "N/A", degree := "N/A", dates := "N/A",
         details := "No specific education entries parsed from section." }]
    else items

/-- The experience split lookahead of lines 366-369 (IGNORECASE, so the
    `[A-Z]` classes match any letter), alternatives in source order. -/
def slmExpSplitLook : RE :=
  ralt
    [rseq [rws0, .cls isAlphaChar,
           .rep (fun c => isWordChar c || isPySpace c || c = ',' || c = '-') 1 none,
           ralt [rlici "engineer", rlici "developer", rlici "manager",
                 rlici "analyst", rlici "specialist", rlici "lead",
                 rlici "architect", rlici "consultant", rlici "designer",
                 rlici "intern", rlici "associate"],
           .wb, .repLazy (fun c => c ≠ '\n') 0 none, rws0,
           ralt [rlit "|", rlit "@", rlici "at"], rws1, .cls isAlphaChar],
     rseq [rlit "\n", rws0,
           ralt [monthAlt12, rlici "present", rlici "current", d4], .wb,
           .repLazy (fun c => c ≠ '\n') 0 none, rlit "-"]]

/-- The experience entry-splitting pattern of lines 366-369. -/
def slmExpSplitPat : RE :=
  ralt [rseq [rlit "\n", rws0, .rep (fun c => c = '\n') 1 none],
        rseq [rlit "\n", .look slmExpSplitLook]]

/-- Class of the job-title fallback of line 407 (letters, whitespace,
    period, comma, apostrophe, hyphen). -/
def slmTitleChar (c : Char) : Bool :=
  isAlphaChar c || isPySpace c || c = '.' || c = ',' || c = Char.ofNat 39 || c = '-'

/-- The anchored job-title fallback pattern of line 407 (IGNORECASE). -/
def slmTitlePat : RE :=
  .grp (rseq [.cls isAlphaChar, .rep slmTitleChar 0 none,
        ralt [rlici "engineer", rlici "developer", rlici "manager",
              rlici "analyst", rlici "specialist", rlici "lead",
              rlici "architect", rlici "consultant", rlici "designer",
              rlici "intern", rlici "scientist", rlici "coordinator",
              rlici "representative", rlici "associate", rlici "president",
              rlici "director", rlici "vp", rlici "vice president"],
        .wb])

/-- The bullet-stripping pattern `^\s*[-*]\s*` of line 415 (MULTILINE). -/
def bulletPat : RE := rseq [rws0, .cls (fun c => c = '-' || c = '*'), rws0]

/-- Lines 375-419: one experience entry of the SLM parser, applied to a
    stripped block past the length gate. -/
def slmExpEntry (pl : SlmPipe) (t0 : String) : SlmExpItem :=
  let dateOpt := extract_dates t0 dateRegexPatterns
  let dates := dateOpt.getD "N/A"
  let t1 := match dateOpt with
    | some d =>
      let a := pyStrip ⟨engineSubFirst (rseq [.wb, .lici (pyLower d).data, .wb])
        [] t0.data⟩
      pyStrip ⟨replaceAll d.data [] a.data⟩
    | none => t0
  let first_few := joinSep "\n" ((splitNL t1).take 3)
  let ents := pl first_few
  let companies := ents.filterMap (fun e =>
    if e.label == "ORG" then some e.text else none)
  let titles := ents.filterMap (fun e =>
    if e.label == "MISC" then some e.text else none)
  let company := match companies with
    | c :: _ => c
    | [] => "N/A"
  let t2 := match companies with
    | c :: _ => pyStrip ⟨replaceAll c.data [] t1.data⟩
    | [] => t1
  let titleAndRest : String × String := match titles with
    | ti :: _ => (ti, pyStrip ⟨replaceAll ti.data [] t2.data⟩)
    | [] =>
      let first_line := pyStrip ((splitNL t2).headD "")
      match engineMatch slmTitlePat first_line.data with
      | some r =>
        let title_text := pyRstripComma (pyStrip ⟨r.matched⟩)
        (title_text, pyStrip ⟨replaceFirst title_text.data [] t2.data⟩)
      | none => ("N/A", t2)
  let d1 := engineSub bulletPat true [] titleAndRest.2.data
  let description := pyStrip ⟨engineSub multiSpacePat false [' '] d1⟩
  { company := company, job_title := titleAndRest.1, dates := dates,
    description := description }

/-- Lines 362-424: the experience step of the SLM parser. -/
def slmExperienceStep (pl : SlmPipe) (resume_text : String) : List SlmExpItem :=
  match get_section_text resume_text experienceKeywords with
  | none =>
    [{ company := "N/A", job_title := "N/A", dates := "N/A",
       description := "Experience section not found." }]
  | some expText =>
    let items := (engineSplit slmExpSplitPat expText.data).filterMap (fun piece =>
      let t := pyStrip (⟨piece⟩ : String)
      if t = "" || t.data.length < 15 then none else some (slmExpEntry pl t))
    if items = [] then
      [{ company := "N/A", job_title := "N/A", dates := "N/A",
         description := "No specific experience entries parsed." }]
    else items

/-- Lines 204-426: `parse_resume_text_with_slm`.  Empty input returns the
    fresh default structure before the model is consulted; a missing model
    (failed `load_slm_model()`) returns the default structure with the name
    field set to an error string and no other step executed; otherwise the
    contact/name/section/skills/education/experience steps run in source
    order.  The name-step `try/except` (lines 235-244) cannot fire for a
    pure oracle. -/
def parse_resume_text_with_slm (p : Option SlmPipe) (resume_text : String) :
    SlmRecord :=
  let parsed := initialize_parsed_data
  if resume_text = "" then parsed
  else
    match p with
    | none => { parsed with name := some "ERROR: SLM Model Not Loaded" }
    | some pl =>
      let contact : SlmContact :=
        { email := joinFoundOrNone emailPat resume_text
          phone := joinFoundOrNone slmPhonePat resume_text
          linkedin := joinFoundOrNone linkedinPat resume_text
          github := joinFoundOrNone githubPat resume_text }
      let nameOpt := ((pl (⟨resume_text.data.take 500⟩ : String)).find?
          (fun e => e.label == "PER")).map (fun e => e.text)
      let summary := match get_section_text resume_text summaryKeywords with
        | some s => some s
        | none => some "Summary section not found or not clearly demarcated."
      let skills := match get_section_text resume_text skillsKeywords with
        | some st => slmSkillsStep pl st
        | none => ["Skills section not found."]
      { name := nameOpt
        contact_info := contact
        summary := summary
        skills := skills
        education := slmEducationStep pl resume_text
        experience := slmExperienceStep pl resume_text }


/-! ## Lemmas and claim theorems -/

/-! Membership lemmas for the list plumbing. -/

theorem mem_firstDedupAux (a : String) :
    ∀ (fuel : Nat) (l : List String), a ∈ firstDedupAux fuel l ↔ a ∈ l := by
  intro fuel
  induction fuel with
  | zero => intro l; cases l <;> simp [firstDedupAux]
  | succ n ih =>
    intro l
    cases l with
    | nil => simp [firstDedupAux]
    | cons x t =>
      simp only [firstDedupAux, List.mem_cons, ih, List.mem_filter,
        decide_eq_true_eq]
      constructor
      · rintro (h | ⟨h, _⟩)
        · exact Or.inl h
        · exact Or.inr h
      · rintro (h | h)
        · exact Or.inl h
        · by_cases hx : a = x
          · exact Or.inl hx
          · exact Or.inr ⟨h, by simpa using hx⟩

theorem mem_firstDedup (a : String) (l : List String) :
    a ∈ firstDedup l ↔ a ∈ l := mem_firstDedupAux a l.length l

theorem mem_insertLeB (le : String → String → Bool) (x a : String) :
    ∀ (l : List String), a ∈ insertLeB le x l ↔ a = x ∨ a ∈ l := by
  intro l
  induction l with
  | nil => simp [insertLeB]
  | cons y t ih =>
    simp only [insertLeB]
    by_cases h : le x y = true
    · simp [h, List.mem_cons]
    · simp only [if_neg h, List.mem_cons, ih]
      tauto

theorem mem_sortLeB (le : String → String → Bool) (a : String) :
    ∀ (l : List String), a ∈ sortLeB le l ↔ a ∈ l := by
  intro l
  induction l with
  | nil => simp [sortLeB]
  | cons x t ih => simp [sortLeB, mem_insertLeB, ih]

/-! ## Claims C1, C10, C2 -/

/-- C1: for every pair of lowercased skill sets, the Streamlit matcher returns
missingSkills = jobSkills − resumeSkills, additionalSkills = resumeSkills −
jobSkills, and matchScorePercent = 100 × |matchingSkills| / |jobSkills| when
jobSkills is non-empty and 0 when it is empty; in particular for empty
resumeSkills the score is 0 and missingSkills equals all of jobSkills. -/
theorem C1_matcher_set_algebra (resume job : Finset String) :
    missingSkills resume job = job \ resume ∧
    additionalSkills resume job = resume \ job ∧
    matchScorePercent resume job =
      (if job.Nonempty then
        ((matchingSkills resume job).card : ℚ) / (job.card : ℚ) * 100
      else 0) ∧
    matchScorePercent ∅ job = 0 ∧
    missingSkills ∅ job = job := by
  refine ⟨rfl, rfl, rfl, ?_, ?_⟩
  · unfold matchScorePercent matchingSkills
    split
    · simp
    · rfl
  · unfold missingSkills
    exact Finset.sdiff_empty

/-- C10: the matcher outputs partition the inputs — matchingSkills and
missingSkills partition jobSkills, matchingSkills and additionalSkills
partition resumeSkills, and the score always lies in [0, 100]. -/
theorem C10_matcher_partition (resume job : Finset String) :
    matchingSkills resume job ∪ missingSkills resume job = job ∧
    matchingSkills resume job ∩ missingSkills resume job = ∅ ∧
    matchingSkills resume job ∪ additionalSkills resume job = resume ∧
    matchingSkills resume job ∩ additionalSkills resume job = ∅ ∧
    0 ≤ matchScorePercent resume job ∧ matchScorePercent resume job ≤ 100 := by
  refine ⟨?_, ?_, ?_, ?_, ?_, ?_⟩
  · ext a
    simp only [matchingSkills, missingSkills, Finset.mem_union, Finset.mem_inter,
      Finset.mem_sdiff]
    tauto
  · ext a
    simp only [matchingSkills, missingSkills, Finset.mem_inter, Finset.mem_sdiff,
      Finset.not_mem_empty, iff_false]
    tauto
  · ext a
    simp only [matchingSkills, additionalSkills, Finset.mem_union,
      Finset.mem_inter, Finset.mem_sdiff]
    tauto
  · ext a
    simp only [matchingSkills, additionalSkills, Finset.mem_inter,
      Finset.mem_sdiff, Finset.not_mem_empty, iff_false]
    tauto
  · unfold matchScorePercent
    split
    · have h0 : (0 : ℚ) ≤ ((matchingSkills resume job).card : ℚ) / (job.card : ℚ) := by
        apply div_nonneg <;> positivity
      nlinarith
    · exact le_refl 0
  · unfold matchScorePercent
    split
    case isTrue h =>
      have hj : (0 : ℚ) < (job.card : ℚ) := by
        exact_mod_cast Finset.card_pos.mpr h
      have hm : ((matchingSkills resume job).card : ℚ) ≤ (job.card : ℚ) := by
        exact_mod_cast Finset.card_le_card Finset.inter_subset_right
      have h1 : ((matchingSkills resume job).card : ℚ) / (job.card : ℚ) ≤ 1 :=
        (div_le_one hj).mpr hm
      nlinarith
    case isFalse h => norm_num

/-- C2 counterexample: in the Streamlit matcher actually cited by the claim,
"react" is a proper substring of the job skill "react.js" yet is NOT counted
as matching, and "react.js" is NOT excluded from missingSkills — the matcher
is a plain set intersection with no substring awareness. -/
theorem C2_counterexample :
    pyIn "react" "react.js" = true ∧ "react" ≠ "react.js" ∧
    matchingSkills {"react"} {"react.js"} = ∅ ∧
    missingSkills {"react"} {"react.js"} = {"react.js"} := by
  refine ⟨by decide, by decide, ?_, ?_⟩ <;> decide

/-- C2 amended: the substring-aware behaviour holds in
compare_resume_to_job_description (src/core_logic/job_analyzer.py): a
lowercased resume skill that is a substring of (or equal to) some JD keyword
is represented in matching_skills, and every keyword listed in
missing_skills_from_jd has no resume skill as a substring. -/
theorem C2_amended_core_substring_matching :
    (∀ (resume_skills : List String) (text : String) (r : String),
        r ∈ resumeSkillsLower resume_skills →
        (∃ kw ∈ jdKeywordsSet text, pyIn r kw = true) →
        ∃ s ∈ matchingSkillsCL resume_skills text, pyLower s = r) ∧
    (∀ (resume_skills : List String) (text : String) (kw : String),
        kw ∈ missingSkillsCL resume_skills text →
        ∀ r ∈ resumeSkillsLower resume_skills, pyIn r kw = false) := by
  constructor
  · intro skills text r hr hex
    obtain ⟨kw, hkw, hin⟩ := hex
    have hcond :
        ((jdKeywordsSet text).contains r ||
          (jdKeywordsSet text).any (fun kw => pyIn r kw)) = true := by
      apply Bool.or_eq_true_iff.mpr
      exact Or.inr (List.any_eq_true.mpr ⟨kw, hkw, hin⟩)
    have hs : ∃ s0, skills.find? (fun s => pyLower s == r) = some s0 := by
      rcases hfind : skills.find? (fun s => pyLower s == r) with _ | s0
      · exfalso
        have hr2 : r ∈ (skills.filter (fun s => s ≠ "" && pyStrip s ≠ "")).map pyLower := by
          have := (mem_firstDedup r _).mp hr
          simpa [resumeSkillsLower] using this
        obtain ⟨s1, hs1, hlow⟩ := List.mem_map.mp hr2
        have hs1m : s1 ∈ skills := List.mem_of_mem_filter hs1
        have := List.find?_eq_none.mp hfind s1 hs1m
        simp [hlow] at this
      · exact ⟨s0, rfl⟩
    obtain ⟨s0, hs0⟩ := hs
    have hlow0 : pyLower s0 = r := by
      have := List.find?_some hs0
      simpa using this
    refine ⟨originalSkillFor skills r, ?_, ?_⟩
    · unfold matchingSkillsCL
      apply (mem_sortLeB _ _ _).mpr
      apply (mem_firstDedup _ _).mpr
      exact List.mem_filterMap.mpr ⟨r, hr, by rw [hcond]; rfl⟩
    · unfold originalSkillFor
      rw [hs0]
      simpa using hlow0
  · intro skills text kw hkw r hr
    unfold missingSkillsCL at hkw
    have h1 := List.take_subset 15 _ hkw
    have h2 := (mem_sortLeB _ _ _).mp h1
    have h3 := (mem_firstDedup _ _).mp h2
    have h4 := (List.mem_filter.mp h3).2
    have h5 : ((resumeSkillsLower skills).any (fun r => pyIn r kw)) = false := by
      rcases Bool.and_eq_true_iff.mp h4 with ⟨_, hb⟩
      simpa using hb
    have := List.any_eq_true (l := resumeSkillsLower skills)
      (p := fun r => pyIn r kw)
    rcases h : pyIn r kw with _ | _
    · rfl
    · exfalso
      have : (resumeSkillsLower skills).any (fun r => pyIn r kw) = true :=
        List.any_eq_true.mpr ⟨r, hr, h⟩
      rw [h5] at this
      exact Bool.false_ne_true this

/-- Witness for the amended C2 theorem at a concrete input: resume skill
"React" is a substring of the JD keyword "react.js", so it appears in
matching_skills; and no missing-keyword suggestion is covered by a resume
skill. -/
theorem C2_amended_witness :
    ∃ s ∈ matchingSkillsCL ["React"] "use react.js here", pyLower s = "react" :=
  C2_amended_core_substring_matching.1 ["React"] "use react.js here" "react"
    (by decide) ⟨"react.js", by decide, by decide⟩

/-! ## Claims C5 and C6 -/

/-- C5: the returned seniority is the first level in the fixed priority order
Manager > Principal > Staff > Lead > Senior > Mid-Level > Junior whose
keywords match the text, and it is None exactly when no level's keyword
matches. -/
theorem C5_seniority_priority :
    ∀ text : String,
      (extract_experience_level text).2 =
        seniorityPriority.find? (fun l => seniorityFound l (pyLower text)) ∧
      ((extract_experience_level text).2 = none ↔
        ∀ l ∈ seniorityPriority, seniorityFound l (pyLower text) = false) := by
  intro text
  have hfind : (extract_experience_level text).2 =
      seniorityPriority.find? (fun l => seniorityFound l (pyLower text)) := by
    show extract_seniority text = _
    unfold extract_seniority seniorityPriority
    rcases h1 : seniorityFound "Manager" (pyLower text) <;>
      rcases h2 : seniorityFound "Principal" (pyLower text) <;>
      rcases h3 : seniorityFound "Staff" (pyLower text) <;>
      rcases h4 : seniorityFound "Lead" (pyLower text) <;>
      rcases h5 : seniorityFound "Senior" (pyLower text) <;>
      rcases h6 : seniorityFound "Mid-Level" (pyLower text) <;>
      rcases h7 : seniorityFound "Junior" (pyLower text) <;>
      simp [List.find?, h1, h2, h3, h4, h5, h6, h7]
  refine ⟨hfind, ?_⟩
  rw [hfind]
  rw [List.find?_eq_none]
  constructor
  · intro h l hl
    have := h l hl
    simpa using this
  · intro h l hl
    simp [h l hl]

/-- Witness for C5 at a concrete input where both "senior" and "manager"
keywords occur: the higher-priority Manager wins. -/
theorem C5_seniority_witness :
    (extract_experience_level "Senior Engineering Manager wanted").2 = some "Manager" ∧
    seniorityFound "Senior" (pyLower "Senior Engineering Manager wanted") = true ∧
    seniorityFound "Manager" (pyLower "Senior Engineering Manager wanted") = true := by
  refine ⟨?_, by decide, by decide⟩
  rw [(C5_seniority_priority "Senior Engineering Manager wanted").1]
  decide

set_option maxHeartbeats 2000000 in
/-- C6: years-of-experience extraction normalizes the first matched phrase:
"5+ years of experience" yields exactly "5+ years", and "3-5 years of
experience" yields exactly "3-5 years". -/
theorem C6_years_normalization :
    (extract_experience_level "5+ years of experience").1 = some "5+ years" ∧
    (extract_experience_level "3-5 years of experience").1 = some "3-5 years" := by
  constructor <;> decide

theorem takeUntilBoundary_le (v : List Char) (hv : isHdrBoundary v = true) :
    ∀ u : List Char, (takeUntilBoundary (u ++ v)).length ≤ u.length := by
  intro u
  induction u with
  | nil =>
    cases v with
    | nil => simp [takeUntilBoundary]
    | cons c t => simp [takeUntilBoundary, hv]
  | cons c u2 ih =>
    simp only [List.cons_append, takeUntilBoundary]
    split
    · simp
    · simpa using Nat.succ_le_succ ih

theorem dropWhile_len_le (p : Char → Bool) :
    ∀ l : List Char, (l.dropWhile p).length ≤ l.length := by
  intro l
  induction l with
  | nil => simp
  | cons c t ih =>
    by_cases h : p c
    · simp only [List.dropWhile_cons, h, if_true, List.length_cons]
      exact Nat.le_trans ih (Nat.le_succ _)
    · simp [List.dropWhile_cons, h]

theorem stripChars_length_le (l : List Char) : (stripChars l).length ≤ l.length := by
  unfold stripChars
  calc ((l.dropWhile isPySpace).reverse.dropWhile isPySpace).reverse.length
      = ((l.dropWhile isPySpace).reverse.dropWhile isPySpace).length := by
        rw [List.length_reverse]
    _ ≤ (l.dropWhile isPySpace).reverse.length := dropWhile_len_le _ _
    _ = (l.dropWhile isPySpace).length := by rw [List.length_reverse]
    _ ≤ l.length := dropWhile_len_le _ _

/-- C4 counterexample: the capture does not always end before the next known
header line.  In "Skills\nEducation\nMIT\n" the section-header match
`^\s*(skills)[:\s-]*\n` consumes the newline separating it from the
"Education" line, so the any-known-header lookahead (which needs a leading
newline) never fires there and the captured skills section is
"Education\nMIT" — it contains the "Education" header line and the content
after it, even though the program itself recognizes that very line as the
education header of the same text (second conjunct). -/
theorem C4_counterexample :
    get_section_text "Skills\nEducation\nMIT\n" skillsKeywords =
      some "Education\nMIT" ∧
    get_section_text "Skills\nEducation\nMIT\n" educationKeywords =
      some "MIT" :=
  ⟨by rfl, by rfl⟩

/-- C4 amended: the captured text ends strictly before the next position
where the code's any-known-header lookahead `\n\s*(HDR)[:\s-]*\n` fires
(or at end of text when it never fires): if the remainder after the section
header splits as u ++ v with the lookahead firing at v, the returned
content fits inside u.  A known header line whose separating newline was
already consumed by the section-header match, or one not followed by a
newline, does not trigger the lookahead and can be captured. -/
theorem C4_section_capture_bound (full_text : String) (kws : List String)
    (content : String) (r : MRes)
    (hsearch : searchAux (sectionHeadPat kws) true none full_text.data 0 = some r)
    (hget : get_section_text full_text kws = some content) :
    ∀ (u v : List Char), r.rest = u ++ v → isHdrBoundary v = true →
      content.length ≤ u.length := by
  intro u v hsplit hv
  have hc : content = pyStrip ⟨takeUntilBoundary r.rest⟩ := by
    unfold get_section_text at hget
    rw [hsearch] at hget
    exact (Option.some_inj.mp hget).symm
  subst hc
  calc (pyStrip ⟨takeUntilBoundary r.rest⟩).length
      = (stripChars (takeUntilBoundary r.rest)).length := rfl
    _ ≤ (takeUntilBoundary r.rest).length := stripChars_length_le _
    _ ≤ u.length := by rw [hsplit]; exact takeUntilBoundary_le v hv u

/-- Witness for C4 on the spec's example shape: the skills section of
"Skills\npython, sql\nEducation\nMIT\n" captures exactly "python, sql",
and the capture-bound theorem applies at the "\nEducation\nMIT\n"
boundary. -/
theorem C4_section_witness :
    get_section_text "Skills\npython, sql\nEducation\nMIT\n" skillsKeywords
        = some "python, sql" ∧
    ("python, sql" : String).length ≤ ("python, sql".data).length := by
  constructor
  · rfl
  · exact C4_section_capture_bound "Skills\npython, sql\nEducation\nMIT\n"
      skillsKeywords "python, sql"
      ⟨0, "Skills\n".data, none, some '\n', "python, sql\nEducation\nMIT\n".data⟩
      (by rfl) (by rfl)
      "python, sql".data "\nEducation\nMIT\n".data (by rfl) (by rfl)

/-! ## Claims C7 and C8 -/

theorem eduEntryGate (m : NLP) (s : String)
    (h : (pyStrip s).data.length < 10) :
    parse_single_education_entry m s = none := by
  unfold parse_single_education_entry
  rw [if_pos]
  simp only [Bool.or_eq_true, decide_eq_true_eq]
  exact Or.inr h

theorem expEntryGate (m : NLP) (s : String)
    (h : (pyStrip s).data.length < 15) :
    parse_single_experience_entry m s = .ok none := by
  unfold parse_single_experience_entry
  rw [if_pos]
  simp only [Bool.or_eq_true, decide_eq_true_eq]
  exact Or.inr h

theorem eduPieceGate (m : NLP) (s : String)
    (h : (pyStrip s).data.length < 10) :
    eduPieceParse m s = none := by
  unfold eduPieceParse
  split
  · exact eduEntryGate m s h
  · rfl

theorem expPieceGate (m : NLP) (s : String)
    (h : (pyStrip s).data.length < 15) :
    expPieceParse m s = none := by
  unfold expPieceParse
  split
  · rw [expEntryGate m s h]
  · rfl

/-- C7: the entry parsers never emit an entry for a candidate block whose
stripped length is below the minimum-content threshold (10 characters for
education entries, 15 for experience entries), and such blocks are skipped
while the sibling blocks of the section are parsed unchanged. -/
theorem C7_minimum_content_gate :
    (∀ (m : NLP) (s : String), (pyStrip s).data.length < 10 →
        parse_single_education_entry m s = none) ∧
    (∀ (m : NLP) (s : String), (pyStrip s).data.length < 15 →
        parse_single_experience_entry m s = .ok none) ∧
    (∀ (m : NLP) (pre post : List String) (s : String),
        (pyStrip s).data.length < 10 →
        (pre ++ s :: post).filterMap (eduPieceParse m) =
          (pre ++ post).filterMap (eduPieceParse m)) ∧
    (∀ (m : NLP) (pre post : List String) (s : String),
        (pyStrip s).data.length < 15 →
        (pre ++ s :: post).filterMap (expPieceParse m) =
          (pre ++ post).filterMap (expPieceParse m)) := by
  refine ⟨eduEntryGate, expEntryGate, ?_, ?_⟩
  · intro m pre post s h
    rw [List.filterMap_append, List.filterMap_append, List.filterMap_cons,
      eduPieceGate m s h]
  · intro m pre post s h
    rw [List.filterMap_append, List.filterMap_append, List.filterMap_cons,
      expPieceGate m s h]

/-- Witness for C7 at concrete blocks: a 5-character education block and a
9-character experience block produce no entry, and dropping the short block
leaves the sibling parse unchanged. -/
theorem C7_witness :
    parse_single_education_entry blankNLP "short" = none ∧
    parse_single_experience_entry blankNLP "too short" = .ok none ∧
    (["Graduated in 2015 with honors", "short"].filterMap
        (eduPieceParse blankNLP) =
      ["Graduated in 2015 with honors"].filterMap (eduPieceParse blankNLP)) := by
  refine ⟨C7_minimum_content_gate.1 blankNLP "short" (by decide),
    C7_minimum_content_gate.2.1 blankNLP "too short" (by decide), ?_⟩
  exact C7_minimum_content_gate.2.2.1 blankNLP
    ["Graduated in 2015 with honors"] [] "short" (by decide)

/-- C8 counterexample: on a concrete section-free input (with the degraded
pipeline the module itself falls back to), the returned record contains an
education entry and an experience entry whose fields are all the "N/A"
sentinel — the placeholders appended at lines 382-384. -/
theorem C8_counterexample :
    parse_resume_text blankNLP "hello world resume text, no sections at all" =
      .ok { name := "N/A", email := "N/A", phone := "N/A", skills := ["N/A"],
            summary := "N/A", education := [eduPlaceholder],
            experience := [expPlaceholder] } ∧
    eduPlaceholder = { degree := "N/A", institution := "N/A", date := "N/A" } ∧
    expPlaceholder = { job_title := "N/A", company := "N/A",
                       date_range := "N/A", description := "N/A" } := by
  exact ⟨by rfl, rfl, rfl⟩

/-- C8 amended: the per-entry parsers themselves never emit an entry with no
usable field — an education entry is emitted only when a truthy degree,
institution or date was extracted, and the (broken) experience entry parser
emits no entry at all — but the orchestrator's final normalization appends a
single all-sentinel placeholder entry whenever the education or experience
list is empty. -/
theorem C8_amended_no_usable_field_dropped :
    (∀ (m : NLP) (s : String),
        truthy (eduEntryFields m (pyStrip s)).1 = false →
        truthy (eduEntryFields m (pyStrip s)).2.1 = false →
        truthy (eduEntryFields m (pyStrip s)).2.2 = false →
        parse_single_education_entry m s = none) ∧
    (∀ (m : NLP) (s : String) (e : EduEntry),
        parse_single_education_entry m s = some e →
        truthy (eduEntryFields m (pyStrip s)).1 = true ∨
        truthy (eduEntryFields m (pyStrip s)).2.1 = true ∨
        truthy (eduEntryFields m (pyStrip s)).2.2 = true) ∧
    (∀ (m : NLP) (s : String) (r : Option ExpEntry),
        parse_single_experience_entry m s = .ok r → r = none) ∧
    (∀ d : ResumeRecord, d.education = [] →
        (finalizeParsedData d).education = [eduPlaceholder]) ∧
    (∀ d : ResumeRecord, d.experience = [] →
        (finalizeParsedData d).experience = [expPlaceholder]) := by
  refine ⟨?_, ?_, ?_, ?_, ?_⟩
  · intro m s h1 h2 h3
    unfold parse_single_education_entry
    simp [h1, h2, h3]
  · intro m s e he
    unfold parse_single_education_entry at he
    by_cases hgate : pyStrip s = "" ∨ (pyStrip s).data.length < 10
    · exfalso
      rw [if_pos (by simpa using hgate)] at he
      exact Option.noConfusion he
    · rw [if_neg (by simpa using hgate)] at he
      by_cases hguard :
          (truthy (eduEntryFields m (pyStrip s)).1 ||
            truthy (eduEntryFields m (pyStrip s)).2.1 ||
            truthy (eduEntryFields m (pyStrip s)).2.2) = true
      · rcases Bool.or_eq_true_iff.mp hguard with h | h
        · rcases Bool.or_eq_true_iff.mp h with h2 | h2
          · exact Or.inl h2
          · exact Or.inr (Or.inl h2)
        · exact Or.inr (Or.inr h)
      · exfalso
        rw [if_neg (by simpa using hguard)] at he
        exact Option.noConfusion he
  · intro m s r hr
    unfold parse_single_experience_entry at hr
    by_cases hgate : pyStrip s = "" ∨ (pyStrip s).data.length < 15
    · rw [if_pos (by simpa using hgate)] at hr
      simpa using hr.symm
    · rw [if_neg (by simpa using hgate)] at hr
      exact Except.noConfusion hr
  · intro d h
    unfold finalizeParsedData
    simp [h]
  · intro d h
    unfold finalizeParsedData
    simp [h]

/-- Witness for the amended C8 theorem at a concrete entry: a bare
graduation-year block is emitted with a truthy date field. -/
theorem C8_amended_witness :
    truthy (eduEntryFields blankNLP (pyStrip "Graduated in 2015 with honors")).1 = true ∨
    truthy (eduEntryFields blankNLP (pyStrip "Graduated in 2015 with honors")).2.1 = true ∨
    truthy (eduEntryFields blankNLP (pyStrip "Graduated in 2015 with honors")).2.2 = true :=
  C8_amended_no_usable_field_dropped.2.1 blankNLP "Graduated in 2015 with honors"
    { degree := "N/A", institution := "N/A", date := "2015" } (by rfl)

/-! ## Claims C3 and C9 -/

/-- C3 (code bug): the utils orchestrator is not total — for the empty
string, line 348 of src/utils/resume_parser.py returns
RB_FIELDS_DEFINITIONS_DEFAULT.copy(), a module-level name that is never
defined, so the call raises NameError instead of returning the documented
sentinel-valued record; the sibling SLM orchestrator does meet the claim on
empty input, returning the structurally complete record with sentinel
(None) scalar fields and empty education/experience lists. -/
theorem C3_empty_input_orchestrator :
    (∀ m : NLP, parse_resume_text m "" =
      .error "NameError: name RB_FIELDS_DEFINITIONS_DEFAULT is not defined") ∧
    (∀ p : Option SlmPipe, parse_resume_text_with_slm p "" = initialize_parsed_data) ∧
    initialize_parsed_data.name = none ∧
    initialize_parsed_data.contact_info.email = none ∧
    initialize_parsed_data.contact_info.phone = none ∧
    initialize_parsed_data.skills = [] ∧
    initialize_parsed_data.education = [] ∧
    initialize_parsed_data.experience = [] :=
  ⟨fun _ => rfl, fun _ => rfl, rfl, rfl, rfl, rfl, rfl, rfl⟩

/-- C9 counterexample: with the NER model unavailable, the SLM orchestrator
returns early — the error string "ERROR: SLM Model Not Loaded" is
substituted into the name data field and the email field stays None even
though the module's own email regex finds the address in the text, contrary
to the claimed silent regex-only degradation. -/
theorem C9_counterexample :
    (parse_resume_text_with_slm none "Contact: jane@example.com").name =
      some "ERROR: SLM Model Not Loaded" ∧
    (parse_resume_text_with_slm none "Contact: jane@example.com").contact_info.email
      = none ∧
    joinFoundOrNone emailPat "Contact: jane@example.com" =
      some "jane@example.com" := by
  refine ⟨rfl, rfl, by rfl⟩

/-- C9 amended: entity extraction itself does return an empty list, without
throwing, for every input when the model is unavailable; but the
orchestrator does not degrade silently — for every non-empty input it
returns the default structure with the error string in the name field and
performs no regex contact extraction at all. -/
theorem C9_amended_degraded_mode :
    (∀ (text : String) (labels : List String),
        extract_entities_from_text none text labels = []) ∧
    (∀ text : String, text ≠ "" →
        parse_resume_text_with_slm none text =
          { initialize_parsed_data with
            name := some "ERROR: SLM Model Not Loaded" }) := by
  constructor
  · intro text labels
    rfl
  · intro text h
    unfold parse_resume_text_with_slm
    rw [if_neg h]

/-- Witness for the amended C9 theorem at a concrete non-empty input. -/
theorem C9_amended_witness :
    parse_resume_text_with_slm none "x" =
      { initialize_parsed_data with name := some "ERROR: SLM Model Not Loaded" } :=
  C9_amended_degraded_mode.2 "x" (by decide)

end VZ
